import Mathlib

/-!
# Verification of the `peaks` 2D-Gaussian peak-fitting pipeline

A shallow embedding of the core of the `peaks` repository
(`gauss2d.py`, `stackanalysis.py`, `utils.py`) together with proofs of the
specification claims about it.

Modelling conventions:
* Machine floating-point values are modelled exactly as `PyFloat`: a finite
  rational number, `+inf`, `-inf`, or `nan`, with arithmetic and comparison
  rules following IEEE-754 / NumPy semantics (rounding of finite values is
  idealized away: finite arithmetic is exact rational arithmetic).
* Transcendental library functions (`np.sqrt`, `np.exp`) are threaded through
  as abstract parameters `sqrtA, expA : ℚ → ℚ` giving their value on the
  finite non-negative (resp. finite) inputs; no property of them is assumed.
* The external solver `scipy.optimize.curve_fit` is an oracle parameter.  For
  the 2D fit (which runs inside a `warnings.simplefilter("error",
  OptimizeWarning)` block) its outcome is `ok popt`, or a raised
  `OptimizeWarning`, `ValueError` or `RuntimeError`.  For the 1D fit (no
  warning escalation is active there) the outcome is `ok popt`, or a raised
  `ValueError` or `RuntimeError`.
* Python exceptions are modelled with `Except PyErr`; a raised exception that
  the source does not catch propagates as `Except.error`.
-/

deriving instance DecidableEq for Except

namespace Peaks

/-- A Python exception class, as far as the embedded code distinguishes them. -/
inductive PyErr
  | valueError
  | runtimeError
  | overflowError
  | indexError
deriving DecidableEq

/-- A Python/NumPy double: exact finite rational, infinities or NaN. -/
inductive PyFloat
  | num (q : ℚ)
  | pinf
  | ninf
  | nan
deriving DecidableEq

namespace PyFloat

/-- IEEE sign test used by the division rules. -/
def sign' (q : ℚ) : ℤ := if q > 0 then 1 else if q < 0 then -1 else 0

/-- IEEE addition. -/
def add : PyFloat → PyFloat → PyFloat
  | num a, num b => num (a + b)
  | num _, pinf => pinf
  | num _, ninf => ninf
  | pinf, num _ => pinf
  | ninf, num _ => ninf
  | pinf, pinf => pinf
  | ninf, ninf => ninf
  | pinf, ninf => nan
  | ninf, pinf => nan
  | _, _ => nan

/-- IEEE negation. -/
def neg : PyFloat → PyFloat
  | num a => num (-a)
  | pinf => ninf
  | ninf => pinf
  | nan => nan

/-- IEEE subtraction. -/
def sub (x y : PyFloat) : PyFloat := add x (neg y)

/-- IEEE multiplication (`0 * inf = nan`). -/
def mul : PyFloat → PyFloat → PyFloat
  | num a, num b => num (a * b)
  | num a, pinf => if a > 0 then pinf else if a < 0 then ninf else nan
  | num a, ninf => if a > 0 then ninf else if a < 0 then pinf else nan
  | pinf, num b => if b > 0 then pinf else if b < 0 then ninf else nan
  | ninf, num b => if b > 0 then ninf else if b < 0 then pinf else nan
  | pinf, pinf => pinf
  | ninf, ninf => pinf
  | pinf, ninf => ninf
  | ninf, pinf => ninf
  | _, _ => nan

/-- NumPy float division: division by zero yields `±inf` or `nan` (with a
warning that is not an exception), never a raised error. -/
def div : PyFloat → PyFloat → PyFloat
  | num a, num b =>
      if b = 0 then
        (if a > 0 then pinf else if a < 0 then ninf else nan)
      else num (a / b)
  | num _, pinf => num 0
  | num _, ninf => num 0
  | pinf, num b => if b < 0 then ninf else pinf
  | ninf, num b => if b < 0 then pinf else ninf
  | pinf, pinf => nan
  | pinf, ninf => nan
  | ninf, pinf => nan
  | ninf, ninf => nan
  | _, _ => nan

/-- IEEE absolute value. -/
def pfabs : PyFloat → PyFloat
  | num a => num |a|
  | pinf => pinf
  | ninf => pinf
  | nan => nan

/-- `np.sqrt`: NaN on negative finite input (warning, not an exception);
`sqrtA` supplies the value on non-negative finite input. -/
def pfsqrt (sqrtA : ℚ → ℚ) : PyFloat → PyFloat
  | num a => if a < 0 then nan else num (sqrtA a)
  | pinf => pinf
  | ninf => nan
  | nan => nan

/-- IEEE strict `>` as the source's `popt[3] > max_s`: any comparison with
NaN is `false`. -/
def gt : PyFloat → PyFloat → Bool
  | num a, num b => a > b
  | num _, pinf => false
  | num _, ninf => true
  | pinf, num _ => true
  | ninf, num _ => false
  | pinf, ninf => true
  | ninf, pinf => false
  | pinf, pinf => false
  | ninf, ninf => false
  | _, _ => false

/-- IEEE strict `<` (NaN compares `false`). -/
def lt (x y : PyFloat) : Bool := gt y x

/-- `np.isfinite`. -/
def isFinite : PyFloat → Bool
  | num _ => true
  | _ => false

/-- Pairwise minimum with NaN propagation, as `np.ndarray.min` uses. -/
def min2 : PyFloat → PyFloat → PyFloat
  | nan, _ => nan
  | _, nan => nan
  | num a, num b => num (min a b)
  | ninf, _ => ninf
  | _, ninf => ninf
  | num a, pinf => num a
  | pinf, num b => num b
  | pinf, pinf => pinf

/-- Pairwise maximum with NaN propagation, as `np.ndarray.max` uses. -/
def max2 : PyFloat → PyFloat → PyFloat
  | nan, _ => nan
  | _, nan => nan
  | num a, num b => num (max a b)
  | pinf, _ => pinf
  | _, pinf => pinf
  | num a, ninf => num a
  | ninf, num b => num b
  | ninf, ninf => ninf

/-- Shift by an integer (used for `popt_d['x0'] -= xstart` etc.). -/
def subI (x : PyFloat) (n : ℤ) : PyFloat := sub x (num n)

/-- Shift by an integer (used for `popt_d['x0'] += xstart` etc.). -/
def addI (x : PyFloat) (n : ℤ) : PyFloat := add x (num n)

end PyFloat

/-- `np.ndarray.min` over a 1D array: `ValueError` on an empty array,
otherwise the NaN-propagating minimum. -/
def pyListMin : List PyFloat → Except PyErr PyFloat
  | [] => .error .valueError
  | x :: xs => .ok (xs.foldl PyFloat.min2 x)

/-- `np.ndarray.max` over a 1D array: `ValueError` on an empty array,
otherwise the NaN-propagating maximum. -/
def pyListMax : List PyFloat → Except PyErr PyFloat
  | [] => .error .valueError
  | x :: xs => .ok (xs.foldl PyFloat.max2 x)

/-- Elementwise sum of a 1D float array (`np.sum` of an empty array is `0.0`). -/
def pfSum (l : List PyFloat) : PyFloat := l.foldl PyFloat.add (.num 0)

/-- Python 3 `round` on a finite value: round half to even. -/
def pyRound (q : ℚ) : ℤ :=
  let f : ℤ := ⌊q⌋
  let r : ℚ := q - f
  if r < 1/2 then f
  else if r > 1/2 then f + 1
  else if 2 ∣ f then f else f + 1

/-- Python `int(round(x))`: `ValueError` on NaN, `OverflowError` on an
infinity, otherwise round half to even. -/
def pyRoundI : PyFloat → Except PyErr ℤ
  | .num q => .ok (pyRound q)
  | .pinf => .error .overflowError
  | .ninf => .error .overflowError
  | .nan => .error .valueError

/-!
## `StackAnalyzer.sliceMaker` (stackanalysis.py, lines 27–78)

The stack has shape `(zmax, ymax, xmax)`.  Given an integer window center
`(y0, x0)` and a width, it splits the width into `half1 = width // 2` and
`half2 = width - half1` and clamps the raw bounds: starts below at `0`, ends
above at `dimension - 1`.  The returned bounds are the `start`/`stop` fields
of two Python `slice` objects (`stop` is exclusive).
-/

/-- The two slice objects returned by `sliceMaker`, as
`(ystart, yend, xstart, xend)`; `yend`/`xend` are exclusive stops. -/
structure SliceBounds where
  ystart : ℤ
  yend : ℤ
  xstart : ℤ
  xend : ℤ
deriving DecidableEq

/-- `StackAnalyzer.sliceMaker`.  Python `//` on integers is floor division,
hence `Int.fdiv`. -/
def sliceMaker (ymax xmax : ℕ) (y0 x0 width : ℤ) : SliceBounds :=
  let half1 := Int.fdiv width 2
  let half2 := width - half1
  let ystart := y0 - half1
  let xstart := x0 - half1
  let yend := y0 + half2
  let xend := x0 + half2
  let ystart := if ystart < 0 then 0 else ystart
  let xstart := if xstart < 0 then 0 else xstart
  let yend := if yend ≥ (ymax : ℤ) then (ymax : ℤ) - 1 else yend
  let xend := if xend ≥ (xmax : ℤ) then (xmax : ℤ) - 1 else xend
  ⟨ystart, yend, xstart, xend⟩

/-- All four slice bounds lie in the index range `[0, dimension - 1]` of the
stack: no negative and no out-of-range bound. -/
def SliceBounds.withinDims (b : SliceBounds) (ymax xmax : ℕ) : Prop :=
  0 ≤ b.ystart ∧ b.ystart ≤ (ymax : ℤ) - 1 ∧
  0 ≤ b.yend ∧ b.yend ≤ (ymax : ℤ) - 1 ∧
  0 ≤ b.xstart ∧ b.xstart ≤ (xmax : ℤ) - 1 ∧
  0 ≤ b.xend ∧ b.xend ≤ (xmax : ℤ) - 1

instance (b : SliceBounds) (ymax xmax : ℕ) :
    Decidable (b.withinDims ymax xmax) := by
  unfold SliceBounds.withinDims; infer_instance

/-!
## `Gauss2D` model functions (gauss2d.py, lines 51–147)
-/

/-- A NumPy array of floats: a shape together with the flattened data.
`meshgrid` coordinate arrays and model outputs are of this form. -/
structure Arr where
  shape : List ℕ
  data : List PyFloat
deriving DecidableEq

/-- Elementwise `np.exp`: `expA` supplies the value on finite inputs. -/
def PyFloat.pfexp (expA : ℚ → ℚ) : PyFloat → PyFloat
  | num a => num (expA a)
  | pinf => pinf
  | ninf => num 0
  | nan => nan

/-- One pixel of `Gauss2D.gauss2D`: with `z = ((x0-mu0)/sigma0)**2
- 2*rho*(x0-mu0)*(x1-mu1)/(sigma0*sigma1) + ((x1-mu1)/sigma1)**2`, the value
is `offset + amp*np.exp(-z/(2*(1-rho**2)))`, with the source's operator
grouping. -/
def gaussPixel (expA : ℚ → ℚ) (amp mu0 mu1 sigma0 sigma1 rho offset a b : PyFloat) :
    PyFloat :=
  let d0 := a.sub mu0
  let d1 := b.sub mu1
  let t1 := (d0.div sigma0).mul (d0.div sigma0)
  let t2 := ((((PyFloat.num 2).mul rho).mul d0).mul d1).div (sigma0.mul sigma1)
  let t3 := (d1.div sigma1).mul (d1.div sigma1)
  let z := (t1.sub t2).add t3
  offset.add (amp.mul ((z.neg.div ((PyFloat.num 2).mul
    ((PyFloat.num 1).sub (rho.mul rho)))).pfexp expA))

/-- `Gauss2D.gauss2D`: raises `ValueError` if `x0.shape != x1.shape`, before
any computation; otherwise evaluates the bivariate normal surface
elementwise. -/
def gauss2D (expA : ℚ → ℚ) (x0 x1 : Arr)
    (amp mu0 mu1 sigma0 sigma1 rho offset : PyFloat) : Except PyErr Arr :=
  if x0.shape ≠ x1.shape then .error .valueError
  else .ok ⟨x0.shape,
    List.zipWith (gaussPixel expA amp mu0 mu1 sigma0 sigma1 rho offset)
      x0.data x1.data⟩

/-- `Gauss2D.gauss2D_norot`: the general form with `rho = 0`. -/
def gauss2D_norot (expA : ℚ → ℚ) (x0 x1 : Arr)
    (amp mu0 mu1 sigma0 sigma1 offset : PyFloat) : Except PyErr Arr :=
  gauss2D expA x0 x1 amp mu0 mu1 sigma0 sigma1 (.num 0) offset

/-- `Gauss2D.gauss2D_sym`: the no-rotation form with `sigma1 = sigma0`. -/
def gauss2D_sym (expA : ℚ → ℚ) (x0 x1 : Arr)
    (amp mu0 mu1 sigma0 offset : PyFloat) : Except PyErr Arr :=
  gauss2D_norot expA x0 x1 amp mu0 mu1 sigma0 sigma0 offset

/-- `Gauss2D.model`: dispatches on the number of parameters — 5 to the
symmetric variant, 6 to the axis-aligned variant, 7 to the full variant —
and raises `ValueError` for any other count. -/
def model (expA : ℚ → ℚ) (x0 x1 : Arr) (args : List PyFloat) :
    Except PyErr Arr :=
  match args with
  | [amp, mu0, mu1, sigma0, offset] =>
      gauss2D_sym expA x0 x1 amp mu0 mu1 sigma0 offset
  | [amp, mu0, mu1, sigma0, sigma1, offset] =>
      gauss2D_norot expA x0 x1 amp mu0 mu1 sigma0 sigma1 offset
  | [amp, mu0, mu1, sigma0, sigma1, rho, offset] =>
      gauss2D expA x0 x1 amp mu0 mu1 sigma0 sigma1 rho offset
  | _ => .error .valueError

/-!
## `Gauss2D.estimate_params` (gauss2d.py, lines 216–265)

A 2D window of stack data is a list of rows of (finite) intensities.
`skimage.measure.moments(data, 2)` gives the raster moments
`M[p, q] = sum_r sum_c data[r, c] * r^p * c^q`.
-/

/-- Pixel access in a window, `0` outside (never used out of range on
rectangular windows). -/
def wget (w : List (List ℚ)) (r c : ℕ) : ℚ := (w.getD r []).getD c 0

/-- Number of rows of a window. -/
def nRows (w : List (List ℚ)) : ℕ := w.length

/-- Number of columns of a window (`shape[1]` of a rectangular array). -/
def nCols (w : List (List ℚ)) : ℕ := (w.headD []).length

/-- Raster image moment `M[p, q]` of the window. -/
def momentM (w : List (List ℚ)) (p q : ℕ) : ℚ :=
  ∑ r ∈ Finset.range (nRows w), ∑ c ∈ Finset.range (nCols w),
    wget w r c * (r : ℚ) ^ p * (c : ℚ) ^ q

/-- Row coordinate of the centroid, `M[1,0]/M[0,0]` (the source's `xbar`). -/
def centroid0 (w : List (List ℚ)) : ℚ := momentM w 1 0 / momentM w 0 0

/-- Column coordinate of the centroid, `M[0,1]/M[0,0]` (the source's
`ybar`). -/
def centroid1 (w : List (List ℚ)) : ℚ := momentM w 0 1 / momentM w 0 0

/-- Intensity-normalized central moment `mu[p, q] / M[0, 0]` about the
centroid: the spec's "second central moment" for `(p, q) = (2, 0)`, `(0, 2)`
and the "central mixed moment" for `(1, 1)`. -/
def centralMoment (w : List (List ℚ)) (p q : ℕ) : ℚ :=
  (∑ r ∈ Finset.range (nRows w), ∑ c ∈ Finset.range (nCols w),
    ((r : ℚ) - centroid0 w) ^ p * ((c : ℚ) - centroid1 w) ^ q * wget w r c) /
  momentM w 0 0

/-- Maximum entry of a nonempty list of rationals (`0` for `[]`; callers
guard emptiness). -/
def listMaxD : List ℚ → ℚ
  | [] => 0
  | x :: xs => xs.foldl max x

/-- Minimum entry of a nonempty list of rationals (`0` for `[]`; callers
guard emptiness). -/
def listMinD : List ℚ → ℚ
  | [] => 0
  | x :: xs => xs.foldl min x

/-- `Gauss2D.estimate_params`.  Computes moments up to second order and
derives the 7-parameter estimate
`[amp, x0, y0, sigma_x, sigma_y, rho, offset]`:
`amp = data.max()`, `x0 = M[1,0]/M[0,0]`, `y0 = M[0,1]/M[0,0]`,
`sigma_x = sqrt(|M[2,0]/M[0,0] - xbar^2|)`,
`sigma_y = sqrt(|M[0,2]/M[0,0] - ybar^2|)`,
`rho = covar / sqrt(|xvar * yvar|)`, `offset = data.min()`.
The scalar divisions follow NumPy float semantics (`PyFloat.div`);
`data.max()` on an empty window raises `ValueError`. -/
def estimate_params (sqrtA : ℚ → ℚ) (w : List (List ℚ)) :
    Except PyErr (List PyFloat) := do
  let M00 := momentM w 0 0
  let xbar := PyFloat.div (.num (momentM w 1 0)) (.num M00)
  let ybar := PyFloat.div (.num (momentM w 0 1)) (.num M00)
  let xvar := (PyFloat.div (.num (momentM w 2 0)) (.num M00)).sub (xbar.mul xbar)
  let yvar := (PyFloat.div (.num (momentM w 0 2)) (.num M00)).sub (ybar.mul ybar)
  let covar := (PyFloat.div (.num (momentM w 1 1)) (.num M00)).sub (xbar.mul ybar)
  match w.flatten with
  | [] => .error .valueError
  | _ :: _ =>
    .ok [.num (listMaxD w.flatten), xbar, ybar,
      (xvar.pfabs).pfsqrt sqrtA,
      (yvar.pfabs).pfsqrt sqrtA,
      covar.div (((xvar.mul yvar).pfabs).pfsqrt sqrtA),
      .num (listMinD w.flatten)]

/-!
## `Gauss2D.optimize_params_ls` (gauss2d.py, lines 149–214)
-/

/-- The `modeltype` argument of `optimize_params_ls` (`'sym'`, `'norot'`,
`'full'`). -/
inductive ModelType
  | sym
  | norot
  | full
deriving DecidableEq

/-- Outcome of one `scipy.optimize.curve_fit` call for the 2D fit.  The call
runs inside `warnings.simplefilter("error", OptimizeWarning)`, so an
`OptimizeWarning` is an exception there; `ValueError` and `RuntimeError` are
the other documented failure exceptions of `curve_fit`. -/
inductive Outcome2D
  | ok (popt : List PyFloat)
  | optimizeWarning
  | valueError
  | runtimeError

/-- The 2D solver oracle: from the window data and the initial parameter
vector `p0` (which also fixes the model variant, by its length) to the
outcome of `curve_fit`. -/
def Solver2D : Type := List (List ℚ) → List PyFloat → Outcome2D

/-- The cold-start guess of `optimize_params_ls` when no guess is supplied:
the 7-parameter moment estimate, with `np.delete(guess_params, 5)` applied
for `modeltype == 'sym'` and `np.delete(guess_params, (4, 5))` for
`modeltype == 'norot'`. -/
def coldGuess (sqrtA : ℚ → ℚ) (w : List (List ℚ)) (mt : ModelType) :
    Except PyErr (List PyFloat) := do
  let e ← estimate_params sqrtA w
  match mt with
  | .sym => pure (e.eraseIdx 5)
  | .norot => pure ((e.eraseIdx 5).eraseIdx 4)
  | .full => pure e

/-- `Gauss2D.optimize_params_ls`.  Returns the optimized parameter vector
together with the failure flag.

Modelled from the spec: the `Gauss2D.error` attribute read by
`StackAnalyzer.fitPeak` (set by a part of `Gauss2D` not present in
`src/gauss2d.py`) is, per the spec's `FitResult.succeeded`, true exactly on
the failure paths that set the all-zero sentinel; it is returned here as the
second component.  Likewise `opt_params_dict()` is the parameter vector in
model-argument order `[amp, x0, y0, sigma_x(, sigma_y(, rho)), offset]`,
which is how parameter dictionaries are represented throughout this
embedding.

The solver call is wrapped in `try/except (OptimizeWarning, ValueError,
RuntimeError)`: a raised solver error is converted to the all-zero sentinel
`np.zeros_like(guess_params)` and never propagated.  On solver success the
divergence guard compares `popt[3]` (and `popt[4]` when `len(popt) >= 6`)
against `max(data.shape)`. -/
def optimize_params_ls (solver : Solver2D) (sqrtA : ℚ → ℚ)
    (data : List (List ℚ)) (guess? : Option (List PyFloat)) (mt : ModelType) :
    Except PyErr (List PyFloat × Bool) := do
  let guess ← match guess? with
    | none => coldGuess sqrtA data mt
    | some g => pure g
  match solver data guess with
  | .optimizeWarning => pure (guess.map (fun _ => .num 0), true)
  | .valueError => pure (guess.map (fun _ => .num 0), true)
  | .runtimeError => pure (guess.map (fun _ => .num 0), true)
  | .ok popt =>
      let maxs : ℚ := max (nRows data) (nCols data)
      let bad : Bool :=
        if popt.length < 6 then (popt.getD 3 .nan).gt (.num maxs)
        else ((popt.getD 3 .nan).gt (.num maxs) || (popt.getD 4 .nan).gt (.num maxs))
      if bad then pure (guess.map (fun _ => .num 0), true)
      else pure (popt, false)

/-!
## `StackAnalyzer.fitPeak` (stackanalysis.py, lines 80–170)
-/

/-- A 3D image stack, axis order (depth, row, column). -/
abbrev Stack : Type := List (List (List ℚ))

/-- One recorded fit: the parameter vector (dictionary in model-argument
order) plus the `'slice'` entry. -/
structure FitRow where
  params : List PyFloat
  sliceIdx : ℤ
deriving DecidableEq

/-- The tracking state carried from slice to slice by `fitPeak`: the rounded
window center `(y0, x0)` and the carried parameter dictionary `popt_d`. -/
structure TrackState where
  y0 : ℤ
  x0 : ℤ
  popt_d : List PyFloat
deriving DecidableEq

/-- Python indexing `stack[s]` for the depth axis: negative indices wrap
once; out of range raises `IndexError` (folded into `PyErr.indexError`). -/
def zIndex (stack : Stack) (s : ℤ) : Except PyErr (List (List ℚ)) :=
  let n : ℤ := stack.length
  let i := if s < 0 then s + n else s
  if 0 ≤ i ∧ i < n then .ok (stack.getD i.toNat []) else .error .indexError

/-- NumPy 2D slicing `sl[ystart:yend, xstart:xend]` for the bounds produced
by `sliceMaker` (all `≥ 0` starts; a stop below the start gives an empty
range). -/
def window2D (sl : List (List ℚ)) (b : SliceBounds) : List (List ℚ) :=
  ((sl.drop b.ystart.toNat).take (b.yend - b.ystart).toNat).map
    (fun row => (row.drop b.xstart.toNat).take (b.xend - b.xstart).toNat)

/-- `fitPeak`'s model-type selection from the starting fit:
`len == 6 → 'norot'`, `len == 5 → 'sym'`, otherwise `'full'`. -/
def modeltypeOf (p : List PyFloat) : ModelType :=
  if p.length = 6 then .norot else if p.length = 5 then .sym else .full

/-- Shift the center entries of a parameter dictionary: `p['x0'] += dx`
(index 1) and `p['y0'] += dy` (index 2). -/
def shiftParams (p : List PyFloat) (dx dy : ℤ) : List PyFloat :=
  (p.set 1 ((p.getD 1 .nan).addI dx)).set 2 ((p.getD 2 .nan).addI dy)

/-- The body of `fitPeak`'s per-slice loop.  Builds the window at the current
center, shifts the carried guess into the window frame (an in-place `-=` on
the carried dictionary), runs the warm fit, retries once cold on failure, and
then either records the optimized parameters (shifted back to stack
coordinates, becoming the new carried state with re-rounded center) or, on
failure, records the zero sentinel and keeps `(y0, x0)` — while the carried
dictionary remains the shifted `popt_d`, as the source never undoes the
in-place shift. -/
def fitPeakStep (solver : Solver2D) (sqrtA : ℚ → ℚ) (stack : Stack)
    (width : ℤ) (mt : ModelType) (st : TrackState) (s : ℤ) :
    Except PyErr (FitRow × TrackState) := do
  let ymax := nRows (stack.headD [])
  let xmax := nCols (stack.headD [])
  let b := sliceMaker ymax xmax st.y0 st.x0 width
  let sl ← zIndex stack s
  let win := window2D sl b
  let g := shiftParams st.popt_d (-b.xstart) (-b.ystart)
  let r1 ← optimize_params_ls solver sqrtA win (some g) mt
  let r ← if r1.2 then optimize_params_ls solver sqrtA win none mt else pure r1
  if r.2 then
    pure (⟨r.1, s⟩, ⟨st.y0, st.x0, g⟩)
  else
    let pd := shiftParams r.1 b.xstart b.ystart
    let y0 ← pyRoundI (pd.getD 2 .nan)
    let x0 ← pyRoundI (pd.getD 1 .nan)
    pure (⟨pd, s⟩, ⟨y0, x0, pd⟩)

/-- The slice loop of `fitPeak`, also returning the final tracking state. -/
def fitPeakGo (solver : Solver2D) (sqrtA : ℚ → ℚ) (stack : Stack) (width : ℤ)
    (mt : ModelType) : TrackState → List ℤ →
    Except PyErr (List FitRow × TrackState)
  | st, [] => pure ([], st)
  | st, s :: rest => do
      let rs ← fitPeakStep solver sqrtA stack width mt st s
      let rest2 ← fitPeakGo solver sqrtA stack width mt rs.2 rest
      pure (rs.1 :: rest2.1, rest2.2)

/-- `StackAnalyzer.fitPeak`: rounds the starting fit's center, fixes the
model type from the starting fit's parameter count, and runs the slice
loop. -/
def fitPeak (solver : Solver2D) (sqrtA : ℚ → ℚ) (stack : Stack)
    (slices : List ℤ) (width : ℤ) (startingfit : List PyFloat) :
    Except PyErr (List FitRow) := do
  let y0 ← pyRoundI (startingfit.getD 2 .nan)
  let x0 ← pyRoundI (startingfit.getD 1 .nan)
  let mt := modeltypeOf startingfit
  let r ← fitPeakGo solver sqrtA stack width mt ⟨y0, x0, startingfit⟩ slices
  pure r.1

/-!
## The 1D Gaussian profile fit
(`PSFStackAnalyzer.gauss_fit`, stackanalysis.py lines 188–237; the
module-level `gauss_fit` in utils.py lines 90–117 is the same algorithm and
is embedded once here — the only difference in the source is an unused
`as e` binder on the `except RuntimeError` clause)
-/

/-- Outcome of one `scipy.optimize.curve_fit` call for the 1D fit.  No
warning escalation is active around this call, so an `OptimizeWarning` is
not an exception here; `RuntimeError` is the non-convergence failure and
`ValueError` the invalid-input failure. -/
inductive Outcome1D
  | ok (popt : List PyFloat)
  | valueError
  | runtimeError

/-- The 1D solver oracle: from the model selector (`withoffset`), the x and
y data and the start vector `p0` to the outcome of `curve_fit`. -/
def Solver1D : Type :=
  Bool → List PyFloat → List PyFloat → List PyFloat → Outcome1D

/-- NumPy float power with a natural exponent (`x**0 = 1.0` even for NaN). -/
def PyFloat.pfpow (x : PyFloat) : ℕ → PyFloat
  | 0 => .num 1
  | n + 1 => (PyFloat.pfpow x n).mul x

/-- `nmoment(x, counts, c, n) = np.sum((x-c)**n*counts) / np.sum(counts)`. -/
def nmoment (x counts : List PyFloat) (c : PyFloat) (n : ℕ) : PyFloat :=
  (pfSum (List.zipWith (fun xi ci => ((xi.sub c).pfpow n).mul ci) x counts)).div
    (pfSum counts)

/-- Is this float NaN? -/
def PyFloat.isNan : PyFloat → Bool
  | nan => true
  | _ => false

/-- Select the entries of `l` whose mask bit is set (`l[args]` for a boolean
mask `args`). -/
def maskSelect (l : List PyFloat) (mask : List Bool) : List PyFloat :=
  ((l.zip mask).filter (fun p => p.2)).map (fun p => p.1)

/-- `PSFStackAnalyzer.gauss_fit` (= `utils.gauss_fit`): moment-based start
`p0 = [ydata_corr.max(), x0, sigma_x, offset]`, optional trim of the data to
`|xdata - x0| < trim*sigma_x`, then the 1D `curve_fit`.  Only `RuntimeError`
is caught (yielding the sentinel `p0*np.nan`, a length-4 all-NaN vector); a
`ValueError` from the solver propagates.  `ydata.min()` on an empty profile
raises `ValueError` before any fitting. -/
def gauss_fit (solver1 : Solver1D) (sqrtA : ℚ → ℚ) (xdata ydata : List PyFloat)
    (withoffset : Bool) (trim : Option PyFloat) (guessZ : Option PyFloat) :
    Except PyErr (List PyFloat) := do
  let offset ← pyListMin ydata
  let ydataCorr := ydata.map (fun y => y.sub offset)
  let x0 := match guessZ with
    | none => nmoment xdata ydataCorr (.num 0) 1
    | some g => g
  let sigmaX := (nmoment xdata ydataCorr x0 2).pfsqrt sqrtA
  let ymaxC ← pyListMax ydataCorr
  let p0 : List PyFloat := [ymaxC, x0, sigmaX, offset]
  let mask := xdata.map (fun xi => ((xi.sub x0).pfabs).lt
    ((trim.getD (.num 0)).mul sigmaX))
  let xd := match trim with | none => xdata | some _ => maskSelect xdata mask
  let yd := match trim with | none => ydata | some _ => maskSelect ydata mask
  match solver1 withoffset xd yd (if withoffset then p0 else p0.take 3) with
  | .ok popt => pure (if withoffset then popt else popt.insertIdx 3 offset)
  | .runtimeError => pure (p0.map (fun _ => PyFloat.nan))
  | .valueError => throw .valueError

/-!
## `PSFStackAnalyzer.fitPeaks` and `calc_psf_params`
(stackanalysis.py, lines 240–344)
-/

/-- A detector blob `(y, x, w, amp)`; `fitPeaks` reads only `y` and `x`. -/
structure Blob where
  y : ℤ
  x : ℤ
  w : ℤ
  amp : ℚ

/-- `substack.sum((1, 2))` for one z-slice: total intensity of the window. -/
def sumWindow (win : List (List ℚ)) : ℚ := (win.map (fun r => r.sum)).sum

/-- Helper for `np.argmax`: first index of the maximum. -/
def argmaxGo (bi : ℕ) (bv : ℚ) (i : ℕ) : List ℚ → ℕ
  | [] => bi
  | v :: rest => if v > bv then argmaxGo i v (i + 1) rest
                 else argmaxGo bi bv (i + 1) rest

/-- `np.argmax` over a 1D array: `ValueError` on an empty array, else the
first index attaining the maximum. -/
def argmaxQ : List ℚ → Except PyErr ℕ
  | [] => .error .valueError
  | x :: xs => .ok (argmaxGo 0 x 1 xs)

/-- Stable insertion of a row into a slice-sorted list. -/
def insertSorted (r : FitRow) : List FitRow → List FitRow
  | [] => [r]
  | s :: rest =>
      if r.sliceIdx ≤ s.sliceIdx then r :: s :: rest else s :: insertSorted r rest

/-- `DataFrame.set_index('slice').sort()`: rows ordered by slice index. -/
def sortRows : List FitRow → List FitRow
  | [] => []
  | r :: rest => insertSorted r (sortRows rest)

/-- `abs` applied to the `sigma_x`/`sigma_y` columns (indices 3 and 4) of a
row, as `peakfits_df[['sigma_x','sigma_y']] = abs(...)` does; the pipeline's
rows always have 7 entries. -/
def absSigmas (r : FitRow) : FitRow :=
  ⟨(r.params.set 3 ((r.params.getD 3 .nan).pfabs)).set 4
    ((r.params.getD 4 .nan).pfabs), r.sliceIdx⟩

/-- The per-blob loop of `PSFStackAnalyzer.fitPeaks`: full-depth window at
the blob, representative slice by maximal window intensity sum, cold seed
fit, finiteness check (a non-finite seed prints a diagnostic and skips the
blob), forward and backward tracking from the seed, then absolute sigmas and
slice-sorting. -/
def fitPeaksGo (solver2 : Solver2D) (sqrtA : ℚ → ℚ) (stack : Stack)
    (fitwidth : ℤ) : List Blob → Except PyErr (List (List FitRow))
  | [] => pure []
  | b :: rest => do
      let ymax := nRows (stack.headD [])
      let xmax := nCols (stack.headD [])
      let sb := sliceMaker ymax xmax b.y b.x fitwidth
      let sums := stack.map (fun sl => sumWindow (window2D sl sb))
      let myMax ← argmaxQ sums
      let substack := window2D (stack.getD myMax []) sb
      let r ← optimize_params_ls solver2 sqrtA substack none .full
      if r.1.all (fun v => v.isFinite) then
        let optParams := shiftParams r.1 sb.xstart sb.ystart
        let row0 : FitRow := ⟨optParams, (myMax : ℤ)⟩
        let forward := (List.range (stack.length - (myMax + 1))).map
          (fun i => ((myMax + 1 + i : ℕ) : ℤ))
        let backward := (List.range myMax).reverse.map (fun i => ((i : ℕ) : ℤ))
        let f ← fitPeak solver2 sqrtA stack forward fitwidth optParams
        let bk ← fitPeak solver2 sqrtA stack backward fitwidth optParams
        let rows := sortRows ((row0 :: (f ++ bk)).map absSigmas)
        let rest2 ← fitPeaksGo solver2 sqrtA stack fitwidth rest
        pure (rows :: rest2)
      else
        fitPeaksGo solver2 sqrtA stack fitwidth rest

/-- `PSFStackAnalyzer.fitPeaks`. -/
def fitPeaks (solver2 : Solver2D) (sqrtA : ℚ → ℚ) (stack : Stack)
    (fitwidth : ℤ) (blobs : List Blob) : Except PyErr (List (List FitRow)) :=
  fitPeaksGo solver2 sqrtA stack fitwidth blobs

/-- Does any parameter of the row contain NaN (`DataFrame.dropna`)? -/
def rowHasNan (r : FitRow) : Bool := r.params.any (fun v => v.isNan)

/-- Linear walk for `np.interp` on a sorted sample list. -/
def interpGo (x : PyFloat) : (PyFloat × PyFloat) → List (PyFloat × PyFloat) →
    PyFloat
  | (_, yi), [] => yi
  | (xi, yi), (xj, yj) :: rest =>
      if x.gt xj then interpGo x (xj, yj) rest
      else yi.add (((yj.sub yi).mul (x.sub xi)).div (xj.sub xi))

/-- `np.interp(x, xp, fp)`: `ValueError` on empty sample points; NaN for a
NaN abscissa; clamped piecewise-linear interpolation otherwise. -/
def interp (x : PyFloat) (xp fp : List PyFloat) : Except PyErr PyFloat :=
  match xp.zip fp with
  | [] => .error .valueError
  | p :: rest =>
      if x.isNan then .ok .nan
      else if x.lt p.1 then .ok p.2
      else .ok (interpGo x p rest)

/-- One record of the PSF summary table. -/
structure PSFParams where
  z0 : PyFloat
  y0 : PyFloat
  x0 : PyFloat
  sigmaZ : PyFloat
  sigmaY : PyFloat
  sigmaX : PyFloat
  snr : PyFloat

/-- `PSFStackAnalyzer.calc_psf_params` over the fit tables (with the default
full `subrange`): drop NaN rows, 1D-fit amplitude against slice index,
interpolate centers and widths at the fitted focus, `SNR = famp/offset`.
A `popt` that does not unpack into four values raises `ValueError`, as the
Python tuple unpacking would. -/
def calc_psf_params (solver1 : Solver1D) (sqrtA : ℚ → ℚ) :
    List (List FitRow) → Except PyErr (List PSFParams)
  | [] => pure []
  | fit :: rest => do
      let tempfit := fit.filter (fun r => ! rowHasNan r)
      let z := tempfit.map (fun r => (PyFloat.num (r.sliceIdx : ℚ)))
      let amp := tempfit.map (fun r => r.params.getD 0 .nan)
      let xs := tempfit.map (fun r => r.params.getD 1 .nan)
      let ys := tempfit.map (fun r => r.params.getD 2 .nan)
      let sxs := tempfit.map (fun r => r.params.getD 3 .nan)
      let sys2 := tempfit.map (fun r => r.params.getD 4 .nan)
      let popt ← gauss_fit solver1 sqrtA z amp true none none
      match popt with
      | [famp, z0, sigmaZ, offset] => do
          let x0 ← interp z0 z xs
          let y0 ← interp z0 z ys
          let sigmaX ← interp z0 z sxs
          let sigmaY ← interp z0 z sys2
          let rest2 ← calc_psf_params solver1 sqrtA rest
          pure (⟨z0, y0, x0, sigmaZ.pfabs, sigmaY, sigmaX, famp.div offset⟩ :: rest2)
      | _ => throw .valueError

/-- The full per-batch pipeline of the spec's claim C2: `fitPeaks` followed
by `calc_psf_params`. -/
def pipeline (solver2 : Solver2D) (solver1 : Solver1D) (sqrtA : ℚ → ℚ)
    (stack : Stack) (fitwidth : ℤ) (blobs : List Blob) :
    Except PyErr (List PSFParams) := do
  let fits ← fitPeaks solver2 sqrtA stack fitwidth blobs
  calc_psf_params solver1 sqrtA fits

/-!
## Specification-side predicates for the pipeline-completion theorem
-/

/-- All parameters are finite floats. -/
def FiniteParams (p : List PyFloat) : Prop := ∀ v ∈ p, v.isFinite = true

/-- A benign 2D solver: whenever it reports success, its vector has the
start's length, all entries finite, and the fitted center inside the fitted
window. -/
def GoodSolver2D (solver : Solver2D) : Prop :=
  ∀ data p0 popt, solver data p0 = .ok popt →
    popt.length = p0.length ∧ FiniteParams popt ∧
    (∃ qx, popt.getD 1 .nan = .num qx ∧ 0 ≤ qx ∧ qx ≤ (nCols data : ℚ) - 1) ∧
    (∃ qy, popt.getD 2 .nan = .num qy ∧ 0 ≤ qy ∧ qy ≤ (nRows data : ℚ) - 1)

/-- A benign 1D solver: its failures are non-convergence (`RuntimeError`),
never input-validation (`ValueError`), and a success vector has the start's
length. -/
def GoodSolver1D (solver : Solver1D) : Prop :=
  ∀ wo xd yd p0, solver wo xd yd p0 ≠ .valueError ∧
    ∀ popt, solver wo xd yd p0 = .ok popt → popt.length = p0.length

/-- A well-formed stack: nonempty, rectangular, slices at least `2 × 2`. -/
def WfStack (stack : Stack) : Prop :=
  stack ≠ [] ∧ 2 ≤ nRows (stack.headD []) ∧ 2 ≤ nCols (stack.headD []) ∧
  ∀ sl ∈ stack, sl.length = nRows (stack.headD []) ∧
    ∀ row ∈ sl, row.length = nCols (stack.headD [])

/-- Invariant of the per-slice tracking state: the rounded center is inside
the slice and the carried dictionary has the full 7 parameters. -/
def TrackInv (ymax xmax : ℕ) (st : TrackState) : Prop :=
  0 ≤ st.y0 ∧ st.y0 ≤ (ymax : ℤ) - 1 ∧ 0 ≤ st.x0 ∧ st.x0 ≤ (xmax : ℤ) - 1 ∧
  st.popt_d.length = 7

/-!
## Theorems
-/

/-!
### Shared helper lemmas (moment algebra and scalar `PyFloat` facts)
-/

lemma double_sum_sub_sq (R C : ℕ) (f : ℕ → ℕ → ℚ) (t : ℚ) :
    (∑ r ∈ Finset.range R, ∑ c ∈ Finset.range C, ((r : ℚ) - t) ^ 2 * f r c)
    = (∑ r ∈ Finset.range R, ∑ c ∈ Finset.range C, f r c * (r : ℚ) ^ 2)
      - 2 * t * (∑ r ∈ Finset.range R, ∑ c ∈ Finset.range C, f r c * (r : ℚ))
      + t ^ 2 * (∑ r ∈ Finset.range R, ∑ c ∈ Finset.range C, f r c) := by
  rw [Finset.mul_sum, Finset.mul_sum, ← Finset.sum_sub_distrib, ← Finset.sum_add_distrib]
  refine Finset.sum_congr rfl fun r _ => ?_
  rw [Finset.mul_sum, Finset.mul_sum, ← Finset.sum_sub_distrib, ← Finset.sum_add_distrib]
  refine Finset.sum_congr rfl fun c _ => ?_
  ring

lemma centralMoment20_eq (w : List (List ℚ)) (hM : momentM w 0 0 ≠ 0) :
    centralMoment w 2 0 = momentM w 2 0 / momentM w 0 0 - centroid0 w ^ 2 := by
  have h := double_sum_sub_sq (nRows w) (nCols w) (wget w) (centroid0 w)
  unfold centralMoment
  simp only [pow_zero, mul_one] at h ⊢
  rw [h]
  have hN := hM
  unfold momentM at hN ⊢
  simp only [pow_zero, pow_one, mul_one] at hN ⊢
  unfold centroid0 momentM
  simp only [pow_zero, pow_one, mul_one]
  field_simp
  ring

lemma double_sum_sub_sq_col (R C : ℕ) (f : ℕ → ℕ → ℚ) (s : ℚ) :
    (∑ r ∈ Finset.range R, ∑ c ∈ Finset.range C, ((c : ℚ) - s) ^ 2 * f r c)
    = (∑ r ∈ Finset.range R, ∑ c ∈ Finset.range C, f r c * (c : ℚ) ^ 2)
      - 2 * s * (∑ r ∈ Finset.range R, ∑ c ∈ Finset.range C, f r c * (c : ℚ))
      + s ^ 2 * (∑ r ∈ Finset.range R, ∑ c ∈ Finset.range C, f r c) := by
  rw [Finset.mul_sum, Finset.mul_sum, ← Finset.sum_sub_distrib, ← Finset.sum_add_distrib]
  refine Finset.sum_congr rfl fun r _ => ?_
  rw [Finset.mul_sum, Finset.mul_sum, ← Finset.sum_sub_distrib, ← Finset.sum_add_distrib]
  refine Finset.sum_congr rfl fun c _ => ?_
  ring

lemma double_sum_sub_mixed (R C : ℕ) (f : ℕ → ℕ → ℚ) (t s : ℚ) :
    (∑ r ∈ Finset.range R, ∑ c ∈ Finset.range C, ((r : ℚ) - t) * ((c : ℚ) - s) * f r c)
    = (∑ r ∈ Finset.range R, ∑ c ∈ Finset.range C, f r c * (r : ℚ) * (c : ℚ))
      - t * (∑ r ∈ Finset.range R, ∑ c ∈ Finset.range C, f r c * (c : ℚ))
      - s * (∑ r ∈ Finset.range R, ∑ c ∈ Finset.range C, f r c * (r : ℚ))
      + t * s * (∑ r ∈ Finset.range R, ∑ c ∈ Finset.range C, f r c) := by
  rw [Finset.mul_sum, Finset.mul_sum, Finset.mul_sum, ← Finset.sum_sub_distrib,
    ← Finset.sum_sub_distrib, ← Finset.sum_add_distrib]
  refine Finset.sum_congr rfl fun r _ => ?_
  rw [Finset.mul_sum, Finset.mul_sum, Finset.mul_sum, ← Finset.sum_sub_distrib,
    ← Finset.sum_sub_distrib, ← Finset.sum_add_distrib]
  refine Finset.sum_congr rfl fun c _ => ?_
  ring

lemma centralMoment02_eq (w : List (List ℚ)) (hM : momentM w 0 0 ≠ 0) :
    centralMoment w 0 2 = momentM w 0 2 / momentM w 0 0 - centroid1 w ^ 2 := by
  have h := double_sum_sub_sq_col (nRows w) (nCols w) (wget w) (centroid1 w)
  unfold centralMoment
  simp only [pow_zero, one_mul] at h ⊢
  rw [h]
  have hN := hM
  unfold momentM at hN ⊢
  simp only [pow_zero, pow_one, mul_one, one_mul] at hN ⊢
  unfold centroid1 momentM
  simp only [pow_zero, pow_one, mul_one, one_mul]
  field_simp
  ring

lemma centralMoment11_eq (w : List (List ℚ)) (hM : momentM w 0 0 ≠ 0) :
    centralMoment w 1 1 = momentM w 1 1 / momentM w 0 0 - centroid0 w * centroid1 w := by
  have h := double_sum_sub_mixed (nRows w) (nCols w) (wget w) (centroid0 w) (centroid1 w)
  unfold centralMoment
  simp only [pow_one] at h ⊢
  rw [h]
  have hN := hM
  unfold momentM at hN ⊢
  simp only [pow_zero, pow_one, mul_one, one_mul] at hN ⊢
  unfold centroid0 centroid1 momentM
  simp only [pow_zero, pow_one, mul_one, one_mul]
  field_simp
  ring

lemma div_num_num (a b : ℚ) (hb : b ≠ 0) :
    PyFloat.div (.num a) (.num b) = .num (a / b) := by
  simp [PyFloat.div, hb]

lemma sub_num_num (a b : ℚ) :
    PyFloat.sub (.num a) (.num b) = .num (a - b) := by
  simp [PyFloat.sub, PyFloat.add, PyFloat.neg, sub_eq_add_neg]

lemma mul_num_num (a b : ℚ) :
    PyFloat.mul (.num a) (.num b) = .num (a * b) := rfl

lemma pfabs_num (a : ℚ) : PyFloat.pfabs (.num a) = .num |a| := rfl

lemma pfsqrt_num_nonneg (sqrtA : ℚ → ℚ) (a : ℚ) (h : 0 ≤ a) :
    PyFloat.pfsqrt sqrtA (.num a) = .num (sqrtA a) := by
  simp [PyFloat.pfsqrt, not_lt.mpr h]

/-- Good window bounds: in range, nonempty, forming a sub-rectangle. -/
lemma sliceMaker_good (ymax xmax : ℕ) (y0 x0 width : ℤ)
    (hy0 : 0 ≤ y0) (hy1 : y0 ≤ (ymax : ℤ) - 1)
    (hx0 : 0 ≤ x0) (hx1 : x0 ≤ (xmax : ℤ) - 1)
    (hw : 2 ≤ width) (hym : 2 ≤ ymax) (hxm : 2 ≤ xmax) :
    0 ≤ (sliceMaker ymax xmax y0 x0 width).ystart ∧
    (sliceMaker ymax xmax y0 x0 width).ystart < (sliceMaker ymax xmax y0 x0 width).yend ∧
    (sliceMaker ymax xmax y0 x0 width).yend ≤ (ymax : ℤ) - 1 ∧
    0 ≤ (sliceMaker ymax xmax y0 x0 width).xstart ∧
    (sliceMaker ymax xmax y0 x0 width).xstart < (sliceMaker ymax xmax y0 x0 width).xend ∧
    (sliceMaker ymax xmax y0 x0 width).xend ≤ (xmax : ℤ) - 1 := by
  have hfd : Int.fdiv width 2 = width / 2 := Int.fdiv_eq_ediv width (by norm_num)
  unfold sliceMaker
  dsimp only
  rw [hfd]
  refine ⟨?_, ?_, ?_, ?_, ?_, ?_⟩ <;> split <;> omega

/-- `int(round(q))` stays within any integer bounds that contain `q`. -/
lemma pyRound_bounds (q : ℚ) (a b : ℤ) (ha : (a : ℚ) ≤ q) (hb : q ≤ (b : ℚ)) :
    a ≤ pyRound q ∧ pyRound q ≤ b := by
  have hfl : a ≤ ⌊q⌋ := Int.le_floor.mpr ha
  have hfq : (⌊q⌋ : ℚ) ≤ q := Int.floor_le q
  have hfu : ⌊q⌋ ≤ b := by
    have := Int.floor_le_floor hb
    simpa using this
  unfold pyRound
  dsimp only
  split_ifs with h1 h2 h3
  · exact ⟨hfl, hfu⟩
  · constructor
    · omega
    · have hq2 : (⌊q⌋ : ℚ) + 1 / 2 < q := by linarith
      have : (⌊q⌋ : ℚ) < (b : ℚ) - 1 / 2 := by linarith
      have : (⌊q⌋ : ℚ) < (b : ℚ) := by linarith
      have hlt : ⌊q⌋ < b := by exact_mod_cast this
      omega
  · exact ⟨hfl, hfu⟩
  · constructor
    · omega
    · have hq2 : (⌊q⌋ : ℚ) + 1 / 2 ≤ q := by linarith
      have : (⌊q⌋ : ℚ) ≤ (b : ℚ) - 1 / 2 := by linarith
      have : (⌊q⌋ : ℚ) < (b : ℚ) := by linarith
      have hlt : ⌊q⌋ < b := by exact_mod_cast this
      omega

lemma zIndex_in_range (stack : Stack) (s : ℤ) (h0 : 0 ≤ s) (h1 : s < stack.length) :
    zIndex stack s = .ok (stack.getD s.toNat []) := by
  unfold zIndex
  dsimp only
  rw [if_neg (not_lt.mpr h0), if_pos ⟨h0, h1⟩]

/-- Column count of any extracted window is at most `xend - xstart`. -/
lemma window2D_nCols_le (sl : List (List ℚ)) (b : SliceBounds) :
    (nCols (window2D sl b) : ℤ) ≤ max (b.xend - b.xstart) 0 := by
  unfold nCols window2D
  rcases h : ((sl.drop b.ystart.toNat).take (b.yend - b.ystart).toNat) with _ | ⟨r, rs⟩
  · simp
  · simp only [List.map_cons, List.headD_cons]
    have := List.length_take ((b.xend - b.xstart).toNat) (r.drop b.xstart.toNat)
    simp only [this]
    omega

lemma window2D_nRows_le (sl : List (List ℚ)) (b : SliceBounds) :
    (nRows (window2D sl b) : ℤ) ≤ max (b.yend - b.ystart) 0 := by
  unfold nRows window2D
  rw [List.length_map]
  have := List.length_take ((b.yend - b.ystart).toNat) (sl.drop b.ystart.toNat)
  simp only [this]
  omega


/-- On a well-formed slice, good bounds extract a window with at least one
pixel. -/
lemma window2D_flatten_ne (sl : List (List ℚ)) (b : SliceBounds) (ymax xmax : ℕ)
    (hlen : sl.length = ymax) (hrows : ∀ row ∈ sl, row.length = xmax)
    (hy0 : 0 ≤ b.ystart) (hy1 : b.ystart < b.yend) (hy2 : b.yend ≤ (ymax : ℤ) - 1)
    (hx0 : 0 ≤ b.xstart) (hx1 : b.xstart < b.xend) (hx2 : b.xend ≤ (xmax : ℤ) - 1) :
    (window2D sl b).flatten ≠ [] ∧
    1 ≤ nRows (window2D sl b) ∧ 1 ≤ nCols (window2D sl b) := by
  unfold window2D
  have hm : b.ystart.toNat < sl.length := by omega
  obtain ⟨k, hk⟩ : ∃ k, (b.yend - b.ystart).toNat = k + 1 :=
    ⟨(b.yend - b.ystart).toNat - 1, by omega⟩
  rw [List.drop_eq_getElem_cons hm, hk, List.take_succ_cons, List.map_cons,
    List.flatten_cons]
  have hrow : (sl[b.ystart.toNat]).length = xmax :=
    hrows _ (List.getElem_mem hm)
  have hne : ((sl[b.ystart.toNat]).drop b.xstart.toNat).take
      (b.xend - b.xstart).toNat ≠ [] := by
    have h1 := List.length_take ((b.xend - b.xstart).toNat)
      ((sl[b.ystart.toNat]).drop b.xstart.toNat)
    have h2 := List.length_drop (b.xstart.toNat) (sl[b.ystart.toNat])
    intro hcon
    rw [hcon] at h1
    simp only [List.length_nil] at h1
    omega
  refine ⟨?_, ?_, ?_⟩
  · intro hcon
    exact hne (List.append_eq_nil.mp hcon).1
  · simp [nRows]
  · simp only [nRows, nCols, List.headD_cons]
    have h1 := List.length_take ((b.xend - b.xstart).toNat)
      ((sl[b.ystart.toNat]).drop b.xstart.toNat)
    have h2 := List.length_drop (b.xstart.toNat) (sl[b.ystart.toNat])
    omega

/-- A nonempty window always yields the 7-parameter estimate. -/
lemma estimate_params_ok (sqrtA : ℚ → ℚ) (w : List (List ℚ))
    (hflat : w.flatten ≠ []) :
    ∃ p, estimate_params sqrtA w = .ok p ∧ p.length = 7 := by
  unfold estimate_params
  rcases h : w.flatten with _ | ⟨a, l⟩
  · exact absurd h hflat
  · exact ⟨_, rfl, rfl⟩

/-- A nonempty window always yields the length-7 cold `'full'` guess. -/
lemma coldGuess_full_ok (sqrtA : ℚ → ℚ) (w : List (List ℚ))
    (hflat : w.flatten ≠ []) :
    ∃ g, coldGuess sqrtA w .full = .ok g ∧ g.length = 7 := by
  obtain ⟨p, hp, hlen⟩ := estimate_params_ok sqrtA w hflat
  refine ⟨p, ?_, hlen⟩
  unfold coldGuess
  rw [hp]
  rfl


/-- With an explicit guess, `optimize_params_ls` never raises: it returns
either the zero sentinel with the failure flag, or the solver's vector with
the success flag. -/
lemma optimize_some_spec (solver : Solver2D) (sqrtA : ℚ → ℚ)
    (data : List (List ℚ)) (g : List PyFloat) (mt : ModelType) :
    optimize_params_ls solver sqrtA data (some g) mt =
      .ok (g.map (fun _ => PyFloat.num 0), true) ∨
    (∃ popt, solver data g = .ok popt ∧
      optimize_params_ls solver sqrtA data (some g) mt = .ok (popt, false)) := by
  unfold optimize_params_ls
  cases hs : solver data g with
  | ok popt =>
      simp only [hs, Except.bind, Bind.bind, pure, Except.pure]
      split <;> split
      · left
        rfl
      · right
        exact ⟨popt, rfl, rfl⟩
      · left
        rfl
      · right
        exact ⟨popt, rfl, rfl⟩
  | optimizeWarning => left; simp [hs, Except.bind, Bind.bind, pure, Except.pure]
  | valueError => left; simp [hs, Except.bind, Bind.bind, pure, Except.pure]
  | runtimeError => left; simp [hs, Except.bind, Bind.bind, pure, Except.pure]

/-- With no guess and a nonempty window, the cold `'full'` start never
raises: the result is either the length-7 zero sentinel or the solver's
vector, the solver having been called on a length-7 start. -/
lemma optimize_none_full_spec (solver : Solver2D) (sqrtA : ℚ → ℚ)
    (data : List (List ℚ)) (hflat : data.flatten ≠ []) :
    ∃ cg, coldGuess sqrtA data .full = .ok cg ∧ cg.length = 7 ∧
      (optimize_params_ls solver sqrtA data none .full =
        .ok (cg.map (fun _ => PyFloat.num 0), true) ∨
       (∃ popt, solver data cg = .ok popt ∧
        optimize_params_ls solver sqrtA data none .full = .ok (popt, false))) := by
  obtain ⟨cg, hcg, hlen⟩ := coldGuess_full_ok sqrtA data hflat
  refine ⟨cg, hcg, hlen, ?_⟩
  unfold optimize_params_ls
  rw [hcg]
  cases hs : solver data cg with
  | ok popt =>
      simp only [hs, Except.bind, Bind.bind, pure, Except.pure]
      split <;> split
      · left
        rfl
      · right
        exact ⟨popt, rfl, rfl⟩
      · left
        rfl
      · right
        exact ⟨popt, rfl, rfl⟩
  | optimizeWarning => left; simp [hs, Except.bind, Bind.bind, pure, Except.pure]
  | valueError => left; simp [hs, Except.bind, Bind.bind, pure, Except.pure]
  | runtimeError => left; simp [hs, Except.bind, Bind.bind, pure, Except.pure]


lemma getD_mem {α : Type} (l : List α) (i : ℕ) (d : α) (h : i < l.length) :
    l.getD i d ∈ l := by
  rw [List.getD_eq_getElem?_getD, List.getElem?_eq_getElem h]
  exact List.getElem_mem h

lemma length_eq_seven {α : Type} (p : List α) (h : p.length = 7) :
    ∃ a b c d e f g, p = [a, b, c, d, e, f, g] := by
  rcases p with _ | ⟨a, p⟩
  · simp at h
  rcases p with _ | ⟨b, p⟩
  · simp at h
  rcases p with _ | ⟨c, p⟩
  · simp at h
  rcases p with _ | ⟨d, p⟩
  · simp at h
  rcases p with _ | ⟨e, p⟩
  · simp at h
  rcases p with _ | ⟨f, p⟩
  · simp at h
  rcases p with _ | ⟨g, p⟩
  · simp at h
  rcases p with _ | ⟨h8, p⟩
  · exact ⟨a, b, c, d, e, f, g, rfl⟩
  · simp at h

lemma addI_isFinite (v : PyFloat) (n : ℤ) : (v.addI n).isFinite = v.isFinite := by
  cases v <;> rfl

lemma isFinite_num (v : PyFloat) (h : v.isFinite = true) : ∃ q, v = .num q := by
  cases v with
  | num q => exact ⟨q, rfl⟩
  | pinf => simp [PyFloat.isFinite] at h
  | ninf => simp [PyFloat.isFinite] at h
  | nan => simp [PyFloat.isFinite] at h

lemma shiftParams_length (p : List PyFloat) (dx dy : ℤ) :
    (shiftParams p dx dy).length = p.length := by
  unfold shiftParams
  simp

lemma map_zero_finite (g : List PyFloat) :
    FiniteParams (g.map (fun _ => PyFloat.num 0)) := by
  intro v hv
  rcases List.mem_map.mp hv with ⟨u, _, hu⟩
  rw [← hu]
  rfl


/-- Shifting back into stack coordinates: concrete form on a 7-vector. -/
lemma shiftParams_seven (p0 p1 p2 p3 p4 p5 p6 : PyFloat) (dx dy : ℤ) :
    shiftParams [p0, p1, p2, p3, p4, p5, p6] dx dy =
      [p0, p1.addI dx, p2.addI dy, p3, p4, p5, p6] := rfl

/-- Success branch bookkeeping: a finite solver vector with its center in
the window, shifted back by the window start, rounds to a center inside the
slice and stays finite. -/
lemma success_shift_facts (popt : List PyFloat) (b : SliceBounds) (win : List (List ℚ))
    (ymax xmax : ℕ)
    (hy0 : 0 ≤ b.ystart) (hy1 : b.ystart < b.yend) (hy2 : b.yend ≤ (ymax : ℤ) - 1)
    (hx0 : 0 ≤ b.xstart) (hx1 : b.xstart < b.xend) (hx2 : b.xend ≤ (xmax : ℤ) - 1)
    (hlen : popt.length = 7) (hfin : FiniteParams popt)
    (hqx : ∃ qx, popt.getD 1 .nan = .num qx ∧ 0 ≤ qx ∧ qx ≤ (nCols win : ℚ) - 1)
    (hqy : ∃ qy, popt.getD 2 .nan = .num qy ∧ 0 ≤ qy ∧ qy ≤ (nRows win : ℚ) - 1)
    (hwc : (nCols win : ℤ) ≤ max (b.xend - b.xstart) 0)
    (hwr : (nRows win : ℤ) ≤ max (b.yend - b.ystart) 0) :
    ∃ yr xr, pyRoundI ((shiftParams popt b.xstart b.ystart).getD 2 .nan) = .ok yr ∧
      pyRoundI ((shiftParams popt b.xstart b.ystart).getD 1 .nan) = .ok xr ∧
      0 ≤ yr ∧ yr ≤ (ymax : ℤ) - 1 ∧ 0 ≤ xr ∧ xr ≤ (xmax : ℤ) - 1 ∧
      (shiftParams popt b.xstart b.ystart).length = 7 ∧
      FiniteParams (shiftParams popt b.xstart b.ystart) := by
  obtain ⟨p0, p1, p2, p3, p4, p5, p6, hp⟩ := length_eq_seven popt hlen
  subst hp
  obtain ⟨qx, hqx1, hqx2, hqx3⟩ := hqx
  obtain ⟨qy, hqy1, hqy2, hqy3⟩ := hqy
  simp only [List.getD_cons_succ, List.getD_cons_zero] at hqx1 hqy1
  rw [shiftParams_seven, hqx1, hqy1]
  have hwcq : (nCols win : ℚ) ≤ ((b.xend - b.xstart : ℤ) : ℚ) := by
    have : (nCols win : ℤ) ≤ b.xend - b.xstart := by omega
    exact_mod_cast this
  have hwrq : (nRows win : ℚ) ≤ ((b.yend - b.ystart : ℤ) : ℚ) := by
    have : (nRows win : ℤ) ≤ b.yend - b.ystart := by omega
    exact_mod_cast this
  have hy0q : (0 : ℚ) ≤ (b.ystart : ℚ) := by exact_mod_cast hy0
  have hy2q : (b.yend : ℚ) ≤ (ymax : ℚ) - 1 := by exact_mod_cast hy2
  have hx0q : (0 : ℚ) ≤ (b.xstart : ℚ) := by exact_mod_cast hx0
  have hx2q : (b.xend : ℚ) ≤ (xmax : ℚ) - 1 := by exact_mod_cast hx2
  have hyb := pyRound_bounds (qy + (b.ystart : ℚ)) 0 ((ymax : ℤ) - 1)
    (by push_cast; linarith)
    (by push_cast at hwrq ⊢; linarith)
  have hxb := pyRound_bounds (qx + (b.xstart : ℚ)) 0 ((xmax : ℤ) - 1)
    (by push_cast; linarith)
    (by push_cast at hwcq ⊢; linarith)
  refine ⟨pyRound (qy + (b.ystart : ℚ)), pyRound (qx + (b.xstart : ℚ)),
    rfl, rfl, hyb.1, hyb.2, hxb.1, hxb.2, rfl, ?_⟩
  intro v hv
  simp only [List.mem_cons, List.not_mem_nil, or_false] at hv
  have hf : ∀ u ∈ [p0, p1, p2, p3, p4, p5, p6], PyFloat.isFinite u = true := hfin
  rcases hv with h | h | h | h | h | h | h <;> rw [h]
  · exact hf _ (by simp)
  · rfl
  · rfl
  · exact hf _ (by simp)
  · exact hf _ (by simp)
  · exact hf _ (by simp)
  · exact hf _ (by simp)


lemma fitPeakStep_ok (solver : Solver2D) (sqrtA : ℚ → ℚ) (stack : Stack)
    (width s : ℤ) (st : TrackState)
    (hs2 : GoodSolver2D solver) (hwf : WfStack stack) (hw : 2 ≤ width)
    (hinv : TrackInv (nRows (stack.headD [])) (nCols (stack.headD [])) st)
    (hs0 : 0 ≤ s) (hs1 : s < (stack.length : ℤ)) :
    ∃ row st2, fitPeakStep solver sqrtA stack width .full st s = .ok (row, st2) ∧
      TrackInv (nRows (stack.headD [])) (nCols (stack.headD [])) st2 ∧
      row.params.length = 7 ∧ FiniteParams row.params := by
  obtain ⟨hne, hym, hxm, hsl⟩ := hwf
  obtain ⟨hiy0, hiy1, hix0, hix1, hplen⟩ := hinv
  have hbg := sliceMaker_good (nRows (stack.headD [])) (nCols (stack.headD []))
    st.y0 st.x0 width hiy0 hiy1 hix0 hix1 hw hym hxm
  obtain ⟨hby0, hby1, hby2, hbx0, hbx1, hbx2⟩ := hbg
  have hmem : stack.getD s.toNat [] ∈ stack := getD_mem _ _ _ (by omega)
  have hz := zIndex_in_range stack s hs0 hs1
  have hflat : (window2D (stack.getD s.toNat [])
      (sliceMaker (nRows (stack.headD [])) (nCols (stack.headD []))
        st.y0 st.x0 width)).flatten ≠ [] :=
    (window2D_flatten_ne _ _ _ _ (hsl _ hmem).1 (hsl _ hmem).2
      hby0 hby1 hby2 hbx0 hbx1 hbx2).1
  have hwc := window2D_nCols_le (stack.getD s.toNat [])
    (sliceMaker (nRows (stack.headD [])) (nCols (stack.headD [])) st.y0 st.x0 width)
  have hwr := window2D_nRows_le (stack.getD s.toNat [])
    (sliceMaker (nRows (stack.headD [])) (nCols (stack.headD [])) st.y0 st.x0 width)
  have hglen : (shiftParams st.popt_d
      (-(sliceMaker (nRows (stack.headD [])) (nCols (stack.headD []))
          st.y0 st.x0 width).xstart)
      (-(sliceMaker (nRows (stack.headD [])) (nCols (stack.headD []))
          st.y0 st.x0 width).ystart)).length = 7 := by
    rw [shiftParams_length]
    exact hplen
  unfold fitPeakStep
  dsimp only
  rw [hz]
  dsimp only [Bind.bind, Except.bind]
  rcases optimize_some_spec solver sqrtA _
      (shiftParams st.popt_d
        (-(sliceMaker (nRows (stack.headD [])) (nCols (stack.headD []))
            st.y0 st.x0 width).xstart)
        (-(sliceMaker (nRows (stack.headD [])) (nCols (stack.headD []))
            st.y0 st.x0 width).ystart)) .full with hwarm | ⟨popt, hsv, hwarm⟩
  · -- warm attempt failed; cold retry
    rw [hwarm]
    dsimp only [Bind.bind, Except.bind]
    rw [if_pos rfl]
    rcases optimize_none_full_spec solver sqrtA _ hflat with
      ⟨cg, hcg, hcglen, hcold | ⟨popt2, hsv2, hcold⟩⟩
    · -- cold also failed: zero row, frozen center, shifted carried guess
      rw [hcold]
      dsimp only [Bind.bind, Except.bind]
      rw [if_pos rfl]
      refine ⟨⟨cg.map (fun _ => PyFloat.num 0), s⟩, _, rfl, ?_, ?_, ?_⟩
      · exact ⟨hiy0, hiy1, hix0, hix1, hglen⟩
      · simpa using hcglen
      · exact map_zero_finite cg
    · -- cold succeeded
      rw [hcold]
      obtain ⟨hl2, hfin2, hqx2, hqy2⟩ := hs2 _ _ _ hsv2
      obtain ⟨yr, xr, hyr, hxr, hyr0, hyr1, hxr0, hxr1, hlen7, hfinsh⟩ :=
        success_shift_facts popt2 _ _ _ _ hby0 hby1 hby2 hbx0 hbx1 hbx2
          (hl2.trans hcglen) hfin2 hqx2 hqy2 hwc hwr
      dsimp only [Bind.bind, Except.bind]
      rw [if_neg Bool.false_ne_true, hyr]
      dsimp only [Bind.bind, Except.bind]
      rw [hxr]
      exact ⟨_, _, rfl, ⟨hyr0, hyr1, hxr0, hxr1, hlen7⟩, hlen7, hfinsh⟩
  · -- warm attempt succeeded
    rw [hwarm]
    obtain ⟨hl2, hfin2, hqx2, hqy2⟩ := hs2 _ _ _ hsv
    obtain ⟨yr, xr, hyr, hxr, hyr0, hyr1, hxr0, hxr1, hlen7, hfinsh⟩ :=
      success_shift_facts popt _ _ _ _ hby0 hby1 hby2 hbx0 hbx1 hbx2
        (hl2.trans hglen) hfin2 hqx2 hqy2 hwc hwr
    dsimp only [Bind.bind, Except.bind]
    rw [if_neg Bool.false_ne_true]
    dsimp only [Bind.bind, Except.bind, pure, Except.pure]
    rw [if_neg Bool.false_ne_true, hyr]
    dsimp only [Bind.bind, Except.bind]
    rw [hxr]
    exact ⟨_, _, rfl, ⟨hyr0, hyr1, hxr0, hxr1, hlen7⟩, hlen7, hfinsh⟩


lemma map_const_getD {α β : Type} (l : List α) (c : β) (i : ℕ) (d : β)
    (h : i < l.length) : (l.map (fun _ => c)).getD i d = c := by
  rw [List.getD_eq_getElem?_getD, List.getElem?_eq_getElem (by simpa using h)]
  simp

lemma length_eq_four {α : Type} (p : List α) (h : p.length = 4) :
    ∃ a b c d, p = [a, b, c, d] := by
  rcases p with _ | ⟨a, p⟩
  · simp at h
  rcases p with _ | ⟨b, p⟩
  · simp at h
  rcases p with _ | ⟨c, p⟩
  · simp at h
  rcases p with _ | ⟨d, p⟩
  · simp at h
  rcases p with _ | ⟨e, p⟩
  · exact ⟨a, b, c, d, rfl⟩
  · simp at h

lemma pfabs_isFinite (v : PyFloat) (h : v.isFinite = true) :
    (v.pfabs).isFinite = true := by
  obtain ⟨q, rfl⟩ := isFinite_num v h
  rfl

lemma absSigmas_facts (p : List PyFloat) (si : ℤ) (hlen : p.length = 7)
    (hfin : FiniteParams p) :
    (absSigmas ⟨p, si⟩).params.length = 7 ∧
    FiniteParams (absSigmas ⟨p, si⟩).params ∧
    (absSigmas ⟨p, si⟩).sliceIdx = si := by
  obtain ⟨p0, p1, p2, p3, p4, p5, p6, hp⟩ := length_eq_seven p hlen
  have hf : ∀ u ∈ p, PyFloat.isFinite u = true := hfin
  rw [hp] at hf
  refine ⟨?_, ?_, rfl⟩
  · unfold absSigmas
    dsimp only
    rw [hp]
    rfl
  · unfold absSigmas
    dsimp only
    rw [hp]
    intro v hv
    simp only [List.set, List.getD_cons_succ, List.getD_cons_zero,
      List.mem_cons, List.not_mem_nil, or_false] at hv
    rcases hv with h | h | h | h | h | h | h <;> rw [h]
    · exact hf p0 (by simp)
    · exact hf p1 (by simp)
    · exact hf p2 (by simp)
    · exact pfabs_isFinite p3 (hf p3 (by simp))
    · exact pfabs_isFinite p4 (hf p4 (by simp))
    · exact hf p5 (by simp)
    · exact hf p6 (by simp)

lemma insertSorted_length (r : FitRow) (l : List FitRow) :
    (insertSorted r l).length = l.length + 1 := by
  induction l with
  | nil => rfl
  | cons s rest ih =>
      unfold insertSorted
      split
      · simp
      · simp [ih]

lemma sortRows_length (l : List FitRow) : (sortRows l).length = l.length := by
  induction l with
  | nil => rfl
  | cons r rest ih =>
      unfold sortRows
      rw [insertSorted_length, ih]
      simp

lemma insertSorted_forall (P : FitRow → Prop) (r : FitRow) (l : List FitRow)
    (hr : P r) (hl : ∀ x ∈ l, P x) : ∀ x ∈ insertSorted r l, P x := by
  induction l with
  | nil =>
      intro x hx
      simp only [insertSorted, List.mem_singleton] at hx
      rw [hx]
      exact hr
  | cons s rest ih =>
      intro x hx
      unfold insertSorted at hx
      split at hx
      · rcases List.mem_cons.mp hx with h | h
        · rw [h]; exact hr
        · exact hl x h
      · rcases List.mem_cons.mp hx with h | h
        · rw [h]; exact hl s (by simp)
        · exact ih (fun u hu => hl u (by simp [hu])) x h

lemma sortRows_forall (P : FitRow → Prop) (l : List FitRow)
    (hl : ∀ x ∈ l, P x) : ∀ x ∈ sortRows l, P x := by
  induction l with
  | nil => intro x hx; simp [sortRows] at hx
  | cons r rest ih =>
      unfold sortRows
      exact insertSorted_forall P r (sortRows rest) (hl r (by simp))
        (ih (fun u hu => hl u (by simp [hu])))

lemma rowHasNan_false (r : FitRow) (hfin : FiniteParams r.params) :
    rowHasNan r = false := by
  unfold rowHasNan
  rw [List.any_eq_false]
  intro v hv
  obtain ⟨q, rfl⟩ := isFinite_num v (hfin v hv)
  simp [PyFloat.isNan]

lemma argmaxGo_lt (l : List ℚ) : ∀ bi bv i, bi < i → argmaxGo bi bv i l < i + l.length := by
  induction l with
  | nil => intro bi bv i h; simpa [argmaxGo] using h
  | cons v rest ih =>
      intro bi bv i h
      unfold argmaxGo
      split
      · have := ih i v (i + 1) (by omega)
        simp only [List.length_cons]
        omega
      · have := ih bi bv (i + 1) (by omega)
        simp only [List.length_cons]
        omega

lemma argmaxQ_lt (l : List ℚ) (hne : l ≠ []) :
    ∃ m, argmaxQ l = .ok m ∧ m < l.length := by
  rcases l with _ | ⟨x, xs⟩
  · exact absurd rfl hne
  · refine ⟨argmaxGo 0 x 1 xs, rfl, ?_⟩
    have := argmaxGo_lt xs 0 x 1 (by omega)
    simp only [List.length_cons]
    omega


lemma fitPeakGo_ok (solver : Solver2D) (sqrtA : ℚ → ℚ) (stack : Stack)
    (width : ℤ) (hs2 : GoodSolver2D solver) (hwf : WfStack stack)
    (hw : 2 ≤ width) :
    ∀ (slices : List ℤ) (st : TrackState),
      TrackInv (nRows (stack.headD [])) (nCols (stack.headD [])) st →
      (∀ s ∈ slices, 0 ≤ s ∧ s < (stack.length : ℤ)) →
      ∃ rows st2,
        fitPeakGo solver sqrtA stack width .full st slices = .ok (rows, st2) ∧
        TrackInv (nRows (stack.headD [])) (nCols (stack.headD [])) st2 ∧
        ∀ r ∈ rows, r.params.length = 7 ∧ FiniteParams r.params := by
  intro slices
  induction slices with
  | nil =>
      intro st hst _
      exact ⟨[], st, rfl, hst, by simp⟩
  | cons s rest ih =>
      intro st hst hmem
      obtain ⟨row, st2, hstep, hinv2, hlen, hfin⟩ :=
        fitPeakStep_ok solver sqrtA stack width s st hs2 hwf hw hst
          (hmem s (by simp)).1 (hmem s (by simp)).2
      obtain ⟨rows, st3, hgo, hinv3, hall⟩ :=
        ih st2 hinv2 (fun t ht => hmem t (by simp [ht]))
      refine ⟨row :: rows, st3, ?_, hinv3, ?_⟩
      · unfold fitPeakGo
        rw [hstep]
        dsimp only [Bind.bind, Except.bind]
        rw [hgo]
        rfl
      · intro r hr
        rcases List.mem_cons.mp hr with h | h
        · rw [h]; exact ⟨hlen, hfin⟩
        · exact hall r h

lemma fitPeak_ok (solver : Solver2D) (sqrtA : ℚ → ℚ) (stack : Stack)
    (slices : List ℤ) (width : ℤ) (startingfit : List PyFloat)
    (hs2 : GoodSolver2D solver) (hwf : WfStack stack) (hw : 2 ≤ width)
    (hy : ∃ yr, pyRoundI (startingfit.getD 2 .nan) = .ok yr ∧
      0 ≤ yr ∧ yr ≤ (nRows (stack.headD []) : ℤ) - 1)
    (hx : ∃ xr, pyRoundI (startingfit.getD 1 .nan) = .ok xr ∧
      0 ≤ xr ∧ xr ≤ (nCols (stack.headD []) : ℤ) - 1)
    (hlen : startingfit.length = 7)
    (hmem : ∀ s ∈ slices, 0 ≤ s ∧ s < (stack.length : ℤ)) :
    ∃ rows, fitPeak solver sqrtA stack slices width startingfit = .ok rows ∧
      ∀ r ∈ rows, r.params.length = 7 ∧ FiniteParams r.params := by
  obtain ⟨yr, hyr, hyr0, hyr1⟩ := hy
  obtain ⟨xr, hxr, hxr0, hxr1⟩ := hx
  have hmt : modeltypeOf startingfit = .full := by
    unfold modeltypeOf
    rw [hlen]
    rfl
  obtain ⟨rows, st2, hgo, _, hall⟩ :=
    fitPeakGo_ok solver sqrtA stack width hs2 hwf hw slices
      ⟨yr, xr, startingfit⟩ ⟨hyr0, hyr1, hxr0, hxr1, hlen⟩ hmem
  refine ⟨rows, ?_, hall⟩
  unfold fitPeak
  rw [hyr]
  dsimp only [Bind.bind, Except.bind]
  rw [hxr]
  dsimp only [Bind.bind, Except.bind]
  rw [hmt, hgo]
  rfl


lemma seed_facts_zero (cg : List PyFloat) (hcglen : cg.length = 7)
    (win : List (List ℚ)) (b : SliceBounds) (ymax xmax : ℕ)
    (hy0 : 0 ≤ b.ystart) (hy1 : b.ystart < b.yend) (hy2 : b.yend ≤ (ymax : ℤ) - 1)
    (hx0 : 0 ≤ b.xstart) (hx1 : b.xstart < b.xend) (hx2 : b.xend ≤ (xmax : ℤ) - 1)
    (h1r : 1 ≤ nRows win) (h1c : 1 ≤ nCols win)
    (hwc : (nCols win : ℤ) ≤ max (b.xend - b.xstart) 0)
    (hwr : (nRows win : ℤ) ≤ max (b.yend - b.ystart) 0) :
    ∃ yr xr,
      pyRoundI ((shiftParams (cg.map (fun _ => PyFloat.num 0)) b.xstart b.ystart).getD 2
        .nan) = .ok yr ∧
      pyRoundI ((shiftParams (cg.map (fun _ => PyFloat.num 0)) b.xstart b.ystart).getD 1
        .nan) = .ok xr ∧
      0 ≤ yr ∧ yr ≤ (ymax : ℤ) - 1 ∧ 0 ≤ xr ∧ xr ≤ (xmax : ℤ) - 1 ∧
      (shiftParams (cg.map (fun _ => PyFloat.num 0)) b.xstart b.ystart).length = 7 ∧
      FiniteParams (shiftParams (cg.map (fun _ => PyFloat.num 0)) b.xstart b.ystart) := by
  have h1cq : (1 : ℚ) ≤ (nCols win : ℚ) := by exact_mod_cast h1c
  have h1rq : (1 : ℚ) ≤ (nRows win : ℚ) := by exact_mod_cast h1r
  exact success_shift_facts (cg.map (fun _ => PyFloat.num 0)) b win ymax xmax
    hy0 hy1 hy2 hx0 hx1 hx2 (by simp [hcglen]) (map_zero_finite cg)
    ⟨0, map_const_getD cg _ 1 _ (by omega), le_refl 0, by linarith⟩
    ⟨0, map_const_getD cg _ 2 _ (by omega), le_refl 0, by linarith⟩ hwc hwr

lemma fitPeaksGo_ok (solver2 : Solver2D) (sqrtA : ℚ → ℚ) (stack : Stack)
    (fitwidth : ℤ) (hs2 : GoodSolver2D solver2) (hwf : WfStack stack)
    (hw : 2 ≤ fitwidth) :
    ∀ blobs : List Blob,
      (∀ b ∈ blobs, 0 ≤ b.y ∧ b.y ≤ (nRows (stack.headD []) : ℤ) - 1 ∧
        0 ≤ b.x ∧ b.x ≤ (nCols (stack.headD []) : ℤ) - 1) →
      ∃ tables, fitPeaksGo solver2 sqrtA stack fitwidth blobs = .ok tables ∧
        tables.length ≤ blobs.length ∧
        ∀ t ∈ tables, t ≠ [] ∧
          ∀ r ∈ t, r.params.length = 7 ∧ FiniteParams r.params := by
  intro blobs
  induction blobs with
  | nil =>
      intro _
      exact ⟨[], rfl, by simp, by simp⟩
  | cons b rest ih =>
      intro hblobs
      obtain ⟨hby0, hby1, hbx0, hbx1⟩ := hblobs b (by simp)
      obtain ⟨htab, hgorest, hlenrest, hallrest⟩ :=
        ih (fun u hu => hblobs u (by simp [hu]))
      obtain ⟨hne, hym, hxm, hsl⟩ := hwf
      obtain ⟨hsb0, hsb1, hsb2, hsb3, hsb4, hsb5⟩ :=
        sliceMaker_good (nRows (stack.headD [])) (nCols (stack.headD []))
          b.y b.x fitwidth hby0 hby1 hbx0 hbx1 hw hym hxm
      have hsumsne : stack.map (fun sl => sumWindow (window2D sl
          (sliceMaker (nRows (stack.headD [])) (nCols (stack.headD []))
            b.y b.x fitwidth))) ≠ [] := by
        simpa using hne
      obtain ⟨myMax, hm, hmlt⟩ := argmaxQ_lt _ hsumsne
      rw [List.length_map] at hmlt
      have hsmem : stack.getD myMax [] ∈ stack := getD_mem _ _ _ hmlt
      obtain ⟨hflat, h1r, h1c⟩ :=
        window2D_flatten_ne (stack.getD myMax [])
          (sliceMaker (nRows (stack.headD [])) (nCols (stack.headD []))
            b.y b.x fitwidth) _ _ (hsl _ hsmem).1 (hsl _ hsmem).2
          hsb0 hsb1 hsb2 hsb3 hsb4 hsb5
      have hwc := window2D_nCols_le (stack.getD myMax [])
        (sliceMaker (nRows (stack.headD [])) (nCols (stack.headD []))
          b.y b.x fitwidth)
      have hwr := window2D_nRows_le (stack.getD myMax [])
        (sliceMaker (nRows (stack.headD [])) (nCols (stack.headD []))
          b.y b.x fitwidth)
      have hfwd : ∀ s ∈ (List.range (stack.length - (myMax + 1))).map
          (fun i => ((myMax + 1 + i : ℕ) : ℤ)), 0 ≤ s ∧ s < (stack.length : ℤ) := by
        intro s hs
        obtain ⟨i, hi, rfl⟩ := List.mem_map.mp hs
        rw [List.mem_range] at hi
        omega
      have hbwd : ∀ s ∈ (List.range myMax).reverse.map (fun i => ((i : ℕ) : ℤ)),
          0 ≤ s ∧ s < (stack.length : ℤ) := by
        intro s hs
        obtain ⟨i, hi, rfl⟩ := List.mem_map.mp hs
        rw [List.mem_reverse, List.mem_range] at hi
        omega
      unfold fitPeaksGo
      dsimp only
      rw [hm]
      dsimp only [Bind.bind, Except.bind]
      rcases optimize_none_full_spec solver2 sqrtA _ hflat with
        ⟨cg, hcg, hcglen, hopt | ⟨popt, hsv, hopt⟩⟩
      · -- seed fit failed: all-zero (finite!) seed, blob still tracked
        rw [hopt]
        dsimp only [Bind.bind, Except.bind]
        have hallfin : (cg.map (fun _ => PyFloat.num 0)).all
            (fun v => v.isFinite) = true := by
          rw [List.all_eq_true]
          exact fun v hv => map_zero_finite cg v hv
        rw [if_pos hallfin]
        obtain ⟨yr, xr, hyr, hxr, hyr0, hyr1, hxr0, hxr1, hlen7, hfinsh⟩ :=
          seed_facts_zero cg hcglen _ _ _ _ hsb0 hsb1 hsb2 hsb3 hsb4 hsb5
            h1r h1c hwc hwr
        obtain ⟨f, hf, hallf⟩ :=
          fitPeak_ok solver2 sqrtA stack _ fitwidth _ hs2
            ⟨hne, hym, hxm, hsl⟩ hw ⟨yr, hyr, hyr0, hyr1⟩ ⟨xr, hxr, hxr0, hxr1⟩
            hlen7 hfwd
        obtain ⟨bk, hbk, hallbk⟩ :=
          fitPeak_ok solver2 sqrtA stack _ fitwidth _ hs2
            ⟨hne, hym, hxm, hsl⟩ hw ⟨yr, hyr, hyr0, hyr1⟩ ⟨xr, hxr, hxr0, hxr1⟩
            hlen7 hbwd
        rw [hf]
        dsimp only [Bind.bind, Except.bind]
        rw [hbk]
        dsimp only [Bind.bind, Except.bind]
        rw [hgorest]
        refine ⟨_, rfl, ?_, ?_⟩
        · simp only [List.length_cons]
          omega
        · intro t ht
          rcases List.mem_cons.mp ht with h | h
          · subst h
            constructor
            · intro hcon
              have := sortRows_length
                ((⟨shiftParams (cg.map (fun _ => PyFloat.num 0))
                    (sliceMaker (nRows (stack.headD [])) (nCols (stack.headD []))
                      b.y b.x fitwidth).xstart
                    (sliceMaker (nRows (stack.headD [])) (nCols (stack.headD []))
                      b.y b.x fitwidth).ystart, (myMax : ℤ)⟩ :: (f ++ bk)).map absSigmas)
              rw [hcon] at this
              simp at this
            · refine sortRows_forall _ _ ?_
              intro x hx
              obtain ⟨u, hu, rfl⟩ := List.mem_map.mp hx
              rcases List.mem_cons.mp hu with h2 | h2
              · subst h2
                have := absSigmas_facts _ (myMax : ℤ) hlen7 hfinsh
                exact ⟨this.1, this.2.1⟩
              · rcases List.mem_append.mp h2 with h3 | h3
                · have hu2 := hallf u h3
                  have := absSigmas_facts u.params u.sliceIdx hu2.1 hu2.2
                  exact ⟨this.1, this.2.1⟩
                · have hu2 := hallbk u h3
                  have := absSigmas_facts u.params u.sliceIdx hu2.1 hu2.2
                  exact ⟨this.1, this.2.1⟩
          · exact hallrest t h
      · -- seed fit succeeded
        rw [hopt]
        dsimp only [Bind.bind, Except.bind]
        obtain ⟨hl2, hfin2, hqx2, hqy2⟩ := hs2 _ _ _ hsv
        have hallfin : popt.all (fun v => v.isFinite) = true := by
          rw [List.all_eq_true]
          exact fun v hv => hfin2 v hv
        rw [if_pos hallfin]
        obtain ⟨yr, xr, hyr, hxr, hyr0, hyr1, hxr0, hxr1, hlen7, hfinsh⟩ :=
          success_shift_facts popt _ _ _ _ hsb0 hsb1 hsb2 hsb3 hsb4 hsb5
            (hl2.trans hcglen) hfin2 hqx2 hqy2 hwc hwr
        obtain ⟨f, hf, hallf⟩ :=
          fitPeak_ok solver2 sqrtA stack _ fitwidth _ hs2
            ⟨hne, hym, hxm, hsl⟩ hw ⟨yr, hyr, hyr0, hyr1⟩ ⟨xr, hxr, hxr0, hxr1⟩
            hlen7 hfwd
        obtain ⟨bk, hbk, hallbk⟩ :=
          fitPeak_ok solver2 sqrtA stack _ fitwidth _ hs2
            ⟨hne, hym, hxm, hsl⟩ hw ⟨yr, hyr, hyr0, hyr1⟩ ⟨xr, hxr, hxr0, hxr1⟩
            hlen7 hbwd
        rw [hf]
        dsimp only [Bind.bind, Except.bind]
        rw [hbk]
        dsimp only [Bind.bind, Except.bind]
        rw [hgorest]
        refine ⟨_, rfl, ?_, ?_⟩
        · simp only [List.length_cons]
          omega
        · intro t ht
          rcases List.mem_cons.mp ht with h | h
          · subst h
            constructor
            · intro hcon
              have := sortRows_length
                ((⟨shiftParams popt
                    (sliceMaker (nRows (stack.headD [])) (nCols (stack.headD []))
                      b.y b.x fitwidth).xstart
                    (sliceMaker (nRows (stack.headD [])) (nCols (stack.headD []))
                      b.y b.x fitwidth).ystart, (myMax : ℤ)⟩ :: (f ++ bk)).map absSigmas)
              rw [hcon] at this
              simp at this
            · refine sortRows_forall _ _ ?_
              intro x hx
              obtain ⟨u, hu, rfl⟩ := List.mem_map.mp hx
              rcases List.mem_cons.mp hu with h2 | h2
              · subst h2
                have := absSigmas_facts _ (myMax : ℤ) hlen7 hfinsh
                exact ⟨this.1, this.2.1⟩
              · rcases List.mem_append.mp h2 with h3 | h3
                · have hu2 := hallf u h3
                  have := absSigmas_facts u.params u.sliceIdx hu2.1 hu2.2
                  exact ⟨this.1, this.2.1⟩
                · have hu2 := hallbk u h3
                  have := absSigmas_facts u.params u.sliceIdx hu2.1 hu2.2
                  exact ⟨this.1, this.2.1⟩
          · exact hallrest t h


lemma gauss_fit_good (solver1 : Solver1D) (sqrtA : ℚ → ℚ)
    (xdata ydata : List PyFloat) (hs1 : GoodSolver1D solver1)
    (hne : ydata ≠ []) :
    ∃ popt, gauss_fit solver1 sqrtA xdata ydata true none none = .ok popt ∧
      popt.length = 4 := by
  rcases ydata with _ | ⟨y, ys⟩
  · exact absurd rfl hne
  unfold gauss_fit
  dsimp only [pyListMin, pyListMax, Bind.bind, Except.bind, List.map_cons]
  cases hs : solver1 true xdata (y :: ys) _ with
  | ok popt =>
      refine ⟨popt, ?_, ?_⟩
      · rfl
      · exact ((hs1 true xdata (y :: ys) _).2 popt hs).trans rfl
  | valueError => exact absurd hs ((hs1 true xdata (y :: ys) _).1)
  | runtimeError => exact ⟨_, rfl, by simp⟩

lemma interp_ok (x : PyFloat) (xp fp : List PyFloat)
    (hxp : xp ≠ []) (hfp : fp ≠ []) : ∃ v, interp x xp fp = .ok v := by
  rcases xp with _ | ⟨a, as⟩
  · exact absurd rfl hxp
  rcases fp with _ | ⟨b, bs⟩
  · exact absurd rfl hfp
  unfold interp
  simp only [List.zip_cons_cons]
  split
  · exact ⟨_, rfl⟩
  · split
    · exact ⟨_, rfl⟩
    · exact ⟨_, rfl⟩

lemma calc_psf_params_ok (solver1 : Solver1D) (sqrtA : ℚ → ℚ)
    (hs1 : GoodSolver1D solver1) :
    ∀ tables : List (List FitRow),
      (∀ t ∈ tables, t ≠ [] ∧
        ∀ r ∈ t, r.params.length = 7 ∧ FiniteParams r.params) →
      ∃ res, calc_psf_params solver1 sqrtA tables = .ok res ∧
        res.length = tables.length := by
  intro tables
  induction tables with
  | nil => exact fun _ => ⟨[], rfl, rfl⟩
  | cons t rest ih =>
      intro hall
      obtain ⟨htne, hrows⟩ := hall t (by simp)
      obtain ⟨res, hres, hreslen⟩ := ih (fun u hu => hall u (by simp [hu]))
      have hfilter : t.filter (fun r => ! rowHasNan r) = t := by
        rw [List.filter_eq_self]
        intro r hr
        rw [rowHasNan_false r (hrows r hr).2]
        rfl
      have hzne : t.map (fun r => (PyFloat.num (r.sliceIdx : ℚ))) ≠ [] := by
        simpa using htne
      obtain ⟨popt, hgf, hplen⟩ := gauss_fit_good solver1 sqrtA
        (t.map (fun r => (PyFloat.num (r.sliceIdx : ℚ))))
        (t.map (fun r => r.params.getD 0 .nan)) hs1 (by simpa using htne)
      obtain ⟨famp, z0, sigmaZ, offset, hpopt⟩ := length_eq_four popt hplen
      subst hpopt
      obtain ⟨x0, hx0⟩ := interp_ok z0 (t.map (fun r => (PyFloat.num (r.sliceIdx : ℚ))))
        (t.map (fun r => r.params.getD 1 .nan)) hzne (by simpa using htne)
      obtain ⟨y0, hy0⟩ := interp_ok z0 (t.map (fun r => (PyFloat.num (r.sliceIdx : ℚ))))
        (t.map (fun r => r.params.getD 2 .nan)) hzne (by simpa using htne)
      obtain ⟨sx, hsx⟩ := interp_ok z0 (t.map (fun r => (PyFloat.num (r.sliceIdx : ℚ))))
        (t.map (fun r => r.params.getD 3 .nan)) hzne (by simpa using htne)
      obtain ⟨sy, hsy⟩ := interp_ok z0 (t.map (fun r => (PyFloat.num (r.sliceIdx : ℚ))))
        (t.map (fun r => r.params.getD 4 .nan)) hzne (by simpa using htne)
      refine ⟨⟨z0, y0, x0, sigmaZ.pfabs, sy, sx, famp.div offset⟩ :: res, ?_, ?_⟩
      · unfold calc_psf_params
        rw [hfilter]
        dsimp only [Bind.bind, Except.bind]
        rw [hgf]
        dsimp only [Bind.bind, Except.bind]
        rw [hx0]
        dsimp only [Bind.bind, Except.bind]
        rw [hy0]
        dsimp only [Bind.bind, Except.bind]
        rw [hsx]
        dsimp only [Bind.bind, Except.bind]
        rw [hsy]
        dsimp only [Bind.bind, Except.bind]
        rw [hres]
        rfl
      · simp [hreslen]

/-- **C6** (amended).  For every nonempty 2D intensity window of nonzero
total intensity, `estimate_params` returns amplitude = window maximum,
offset = window minimum, centers = first-order moment ratios (the centroid),
widths = square roots of the absolute second central moments about the
centroid (the absolute value guards negative variance from numerical noise),
and a correlation entry equal to the central mixed moment divided by the
square root of the absolute product of the two variances.  The negative-root
guard is the absolute value under the square root; the division of the
correlation is **not** guarded against a zero denominator (see
`estimate_params_unguarded_div_counterexample`), so the amended claim keeps
the code's NumPy float division (`PyFloat.div`) in the correlation entry
instead of asserting a guard. -/
theorem estimate_params_spec (sqrtA : ℚ → ℚ) (w : List (List ℚ))
    (hne : w.flatten ≠ []) (hM : momentM w 0 0 ≠ 0) :
    estimate_params sqrtA w =
      .ok [.num (listMaxD w.flatten),
           .num (centroid0 w),
           .num (centroid1 w),
           .num (sqrtA |centralMoment w 2 0|),
           .num (sqrtA |centralMoment w 0 2|),
           PyFloat.div (.num (centralMoment w 1 1))
             (.num (sqrtA |centralMoment w 2 0 * centralMoment w 0 2|)),
           .num (listMinD w.flatten)] := by
  have hxbar : PyFloat.div (.num (momentM w 1 0)) (.num (momentM w 0 0))
      = .num (centroid0 w) := div_num_num _ _ hM
  have hybar : PyFloat.div (.num (momentM w 0 1)) (.num (momentM w 0 0))
      = .num (centroid1 w) := div_num_num _ _ hM
  have hxvar : (PyFloat.div (.num (momentM w 2 0)) (.num (momentM w 0 0))).sub
      ((PyFloat.num (centroid0 w)).mul (.num (centroid0 w)))
      = .num (centralMoment w 2 0) := by
    rw [div_num_num _ _ hM, mul_num_num, sub_num_num]
    exact congrArg PyFloat.num (by rw [centralMoment20_eq w hM, pow_two])
  have hyvar : (PyFloat.div (.num (momentM w 0 2)) (.num (momentM w 0 0))).sub
      ((PyFloat.num (centroid1 w)).mul (.num (centroid1 w)))
      = .num (centralMoment w 0 2) := by
    rw [div_num_num _ _ hM, mul_num_num, sub_num_num]
    exact congrArg PyFloat.num (by rw [centralMoment02_eq w hM, pow_two])
  have hcovar : (PyFloat.div (.num (momentM w 1 1)) (.num (momentM w 0 0))).sub
      ((PyFloat.num (centroid0 w)).mul (.num (centroid1 w)))
      = .num (centralMoment w 1 1) := by
    rw [div_num_num _ _ hM, mul_num_num, sub_num_num]
    exact congrArg PyFloat.num (by rw [centralMoment11_eq w hM])
  rcases hflat : w.flatten with _ | ⟨a, l⟩
  · exact absurd hflat hne
  · unfold estimate_params
    rw [hflat]
    dsimp only
    rw [hxbar, hybar, hxvar, hyvar, hcovar, mul_num_num, pfabs_num,
      pfabs_num, pfabs_num, pfsqrt_num_nonneg _ _ (abs_nonneg _),
      pfsqrt_num_nonneg _ _ (abs_nonneg _), pfsqrt_num_nonneg _ _ (abs_nonneg _)]

/-- **C6, counterexample.**  The claim that the correlation entry is
"guarded against division by zero … well-defined with no unguarded division
even for windows of zero variance" is false.  The single-row window
`[[1, 2]]` (a thin edge window) has zero row variance
(`centralMoment w 2 0 = 0`), so the correlation denominator
`np.sqrt(np.abs(xvar*yvar))` is `sqrt(0) = 0` and the correlation entry is
the unguarded division `0.0/0.0 = nan` (here with the square root modelled by
any function that, like the true square root, sends `0` to `0`, e.g. `id`):
the sixth parameter comes out NaN, not a well-defined number. -/
theorem estimate_params_unguarded_div_counterexample :
    centralMoment [[(1 : ℚ), 2]] 2 0 = 0 ∧
    estimate_params id [[(1 : ℚ), 2]] =
      .ok [.num 2, .num 0, .num (2/3), .num 0, .num (2/9), .nan, .num 1] := by
  constructor
  · with_unfolding_all decide
  · with_unfolding_all rfl

/-- Witness for `estimate_params_spec` at the concrete window
`[[1, 2], [3, 5]]`. -/
theorem estimate_params_spec_witness :
    (([[(1 : ℚ), 2], [3, 5]] : List (List ℚ)).flatten ≠ [] ∧
      momentM [[(1 : ℚ), 2], [3, 5]] 0 0 ≠ 0) ∧
    estimate_params id [[(1 : ℚ), 2], [3, 5]] =
      .ok [.num (listMaxD ([[(1 : ℚ), 2], [3, 5]] : List (List ℚ)).flatten),
           .num (centroid0 [[(1 : ℚ), 2], [3, 5]]),
           .num (centroid1 [[(1 : ℚ), 2], [3, 5]]),
           .num (id |centralMoment [[(1 : ℚ), 2], [3, 5]] 2 0|),
           .num (id |centralMoment [[(1 : ℚ), 2], [3, 5]] 0 2|),
           PyFloat.div (.num (centralMoment [[(1 : ℚ), 2], [3, 5]] 1 1))
             (.num (id |centralMoment [[(1 : ℚ), 2], [3, 5]] 2 0 *
                centralMoment [[(1 : ℚ), 2], [3, 5]] 0 2|)),
           .num (listMinD ([[(1 : ℚ), 2], [3, 5]] : List (List ℚ)).flatten)] :=
  ⟨⟨by decide, by with_unfolding_all decide⟩,
    estimate_params_spec id [[(1 : ℚ), 2], [3, 5]] (by decide)
      (by with_unfolding_all decide)⟩

/-- **C4** (confirmed).  For every window and every guess, when the solver
raises a numerical-instability condition — non-convergence (`RuntimeError`),
ill-conditioning escalated from `OptimizeWarning`, or a `ValueError` —
`optimize_params_ls` catches it and converts it into failure: the function
returns normally (no exception propagates to the caller) with the error flag
set, and the returned parameters are the all-zero vector
`np.zeros_like(guess_params)`, of the same length as the guess. -/
theorem optimize_params_ls_catches_solver_errors
    (solver : Solver2D) (sqrtA : ℚ → ℚ) (data : List (List ℚ))
    (guess : List PyFloat) (mt : ModelType)
    (h : solver data guess = .optimizeWarning ∨ solver data guess = .valueError ∨
         solver data guess = .runtimeError) :
    optimize_params_ls solver sqrtA data (some guess) mt =
      .ok (guess.map (fun _ => .num 0), true) ∧
    (guess.map (fun _ => PyFloat.num 0)).length = guess.length := by
  refine ⟨?_, List.length_map _ _⟩
  unfold optimize_params_ls
  rcases h with h | h | h <;> simp [h, Except.bind, Bind.bind, pure, Except.pure]

/-- Witness for `optimize_params_ls_catches_solver_errors`: a solver that
raises `RuntimeError` on a `1 × 1` window with a length-2 guess yields the
all-zero length-2 vector and the failure flag, with no exception. -/
theorem optimize_params_ls_catches_solver_errors_witness :
    optimize_params_ls (fun _ _ => Outcome2D.runtimeError) id [[(1 : ℚ)]]
      (some [.num 1, .num 2]) .full = .ok ([.num 0, .num 0], true) :=
  (optimize_params_ls_catches_solver_errors (fun _ _ => Outcome2D.runtimeError)
    id [[(1 : ℚ)]] [.num 1, .num 2] .full (Or.inr (Or.inr rfl))).1

/-- **C5** (confirmed).  For every window, if the solver returns a parameter
vector whose fitted width exceeds the largest dimension of the window —
`popt[3]` for the 5-parameter variant (`len(popt) < 6`), `popt[3]` or
`popt[4]` for the 6- and 7-parameter variants — then `optimize_params_ls`
treats the fit as divergence and returns the all-zero sentinel with the
failure flag, without raising, regardless of nominal solver convergence
(the solver outcome here is `ok`). -/
theorem optimize_params_ls_divergence_guard
    (solver : Solver2D) (sqrtA : ℚ → ℚ) (data : List (List ℚ))
    (guess popt : List PyFloat) (mt : ModelType)
    (hok : solver data guess = .ok popt)
    (hbad : (popt.length < 6 ∧
             (popt.getD 3 .nan).gt (.num (max (nRows data) (nCols data))) = true) ∨
            (6 ≤ popt.length ∧
             ((popt.getD 3 .nan).gt (.num (max (nRows data) (nCols data))) = true ∨
              (popt.getD 4 .nan).gt (.num (max (nRows data) (nCols data))) = true))) :
    optimize_params_ls solver sqrtA data (some guess) mt =
      .ok (guess.map (fun _ => .num 0), true) := by
  unfold optimize_params_ls
  rcases hbad with ⟨hlen, hgt⟩ | ⟨hlen, hgt⟩
  · simp only [List.getD_eq_getElem?_getD] at hgt
    simp [hok, Except.bind, Bind.bind, pure, Except.pure, hlen, hgt]
  · rcases hgt with hgt | hgt <;>
    · simp only [List.getD_eq_getElem?_getD] at hgt
      simp [hok, Except.bind, Bind.bind, pure, Except.pure, Nat.not_lt.mpr hlen, hgt]

/-- Witness for `optimize_params_ls_divergence_guard`: on a `2 × 2` window
(largest dimension 2), a solver that "converges" to a 5-parameter vector with
width `popt[3] = 9 > 2` is treated as divergence: the all-zero sentinel and
the failure flag come back, with no exception. -/
theorem optimize_params_ls_divergence_guard_witness :
    optimize_params_ls
      (fun _ _ => Outcome2D.ok [.num 1, .num 2, .num 2, .num 9, .num 1]) id
      [[(1 : ℚ), 2], [3, 4]] (some [.num 1, .num 2, .num 2, .num 1, .num 0])
      .sym = .ok ([.num 0, .num 0, .num 0, .num 0, .num 0], true) :=
  optimize_params_ls_divergence_guard
    (fun _ _ => Outcome2D.ok [.num 1, .num 2, .num 2, .num 9, .num 1]) id
    [[(1 : ℚ), 2], [3, 4]] [.num 1, .num 2, .num 2, .num 1, .num 0]
    [.num 1, .num 2, .num 2, .num 9, .num 1] .sym rfl
    (Or.inl ⟨by decide, by with_unfolding_all decide⟩)

/-- **C1** (code bug).  Evaluation of the code at a failing input: a track
whose starting fit has 5 parameters (symmetric variant — `fitPeak` selects
`modeltype = 'sym'` from the length) hits a failed warm fit; the cold retry
calls `optimize_params_ls` with no guess and `modeltype='sym'`, which builds
its start with `np.delete(estimate_params(), 5)` — removing only `rho` from
the 7-parameter moment estimate and leaving **6** parameters (the
axis-aligned variant), not 5.  Here the solver rejects the 5-parameter warm
start and accepts a 6-parameter start, and the slice's recorded fit (and the
carried parameter vector) has length 6, contradicting the claim that the
retried fit keeps the starting variant's length.  (Dually, `'norot'` deletes
indices 4 and 5, leaving 5 parameters: the two deletion sets are swapped in
`gauss2d.py` lines 171–174.) -/
theorem fitPeak_retry_variant_length_bug :
    fitPeak
      (fun _ p0 =>
        if p0.length = 6 then .ok [.num 1, .num 2, .num 2, .num 1, .num 1, .num 0]
        else .runtimeError)
      id [List.replicate 8 (List.replicate 8 (1 : ℚ))] [0] 4
      [.num 1, .num 4, .num 4, .num 1, .num 0] =
      .ok [⟨[.num 1, .num 4, .num 4, .num 1, .num 1, .num 0], 0⟩] ∧
    ([PyFloat.num 1, .num 4, .num 4, .num 1, .num 0] : List PyFloat).length = 5 ∧
    ([PyFloat.num 1, .num 4, .num 4, .num 1, .num 1, .num 0] : List PyFloat).length = 6 := by
  refine ⟨?_, rfl, rfl⟩
  with_unfolding_all rfl

/-- **C3** (code bug).  Evaluation of the code at a failing input: on a
slice where both the warm fit and the cold retry fail (solver always raises
`RuntimeError`), a failed `FitRow` with the all-zero sentinel is recorded and
the rounded window center `(y0, x0) = (4, 4)` is indeed left unchanged — but
the carried guess is **not** identical to its value before the slice: the
source shifts `popt_d['x0'] -= xstart`, `popt_d['y0'] -= ystart` in place
before fitting and never restores it on failure, so the carried dictionary
leaves the slice with centers `(2, 2)` instead of `(4, 4)` (window start
`(ystart, xstart) = (2, 2)`), and the next slice's warm start is
double-shifted. -/
theorem fitPeak_failed_slice_shifts_guess_bug :
    fitPeakGo (fun _ _ => Outcome2D.runtimeError) id
      [List.replicate 8 (List.replicate 8 (1 : ℚ))] 4 .full
      ⟨4, 4, [.num 1, .num 4, .num 4, .num 1, .num 1, .num 0, .num 0]⟩ [0] =
      .ok ([⟨List.replicate 7 (.num 0), 0⟩],
        ⟨4, 4, [.num 1, .num 2, .num 2, .num 1, .num 1, .num 0, .num 0]⟩) ∧
    ([PyFloat.num 1, .num 2, .num 2, .num 1, .num 1, .num 0, .num 0] : List PyFloat) ≠
      [.num 1, .num 4, .num 4, .num 1, .num 1, .num 0, .num 0] := by
  refine ⟨?_, by with_unfolding_all decide⟩
  with_unfolding_all rfl

/-- **C9** (confirmed).  For every z-profile input (slice indices `xdata`
and amplitudes `ydata`, the profile nonempty) and every choice of
`withoffset`, `trim` and `guess_z`, when the 1D solver fails (`curve_fit`
signals its non-convergence failure, `RuntimeError`), `gauss_fit` returns the
length-4 sentinel `p0*np.nan` — `[nan, nan, nan, nan]` for `(amplitude,
center, width, offset)` — and never lets the exception escape to the
caller. -/
theorem gauss_fit_failure_nan_sentinel
    (solver1 : Solver1D) (sqrtA : ℚ → ℚ) (xdata ydata : List PyFloat)
    (withoffset : Bool) (trim : Option PyFloat) (guessZ : Option PyFloat)
    (hne : ydata ≠ [])
    (hsolver : ∀ wo xd yd p0, solver1 wo xd yd p0 = .runtimeError) :
    gauss_fit solver1 sqrtA xdata ydata withoffset trim guessZ =
      .ok [.nan, .nan, .nan, .nan] := by
  unfold gauss_fit
  rcases ydata with _ | ⟨y, ys⟩
  · exact absurd rfl hne
  · simp [pyListMin, pyListMax, hsolver, Except.bind, Bind.bind, pure, Except.pure]

/-- Witness for `gauss_fit_failure_nan_sentinel` on the concrete profile
`x = [0, 1]`, `y = [1, 3]` with an always-failing solver. -/
theorem gauss_fit_failure_nan_sentinel_witness :
    gauss_fit (fun _ _ _ _ => Outcome1D.runtimeError) id
      [.num 0, .num 1] [.num 1, .num 3] true none none =
      .ok [.nan, .nan, .nan, .nan] :=
  gauss_fit_failure_nan_sentinel (fun _ _ _ _ => Outcome1D.runtimeError) id
    [.num 0, .num 1] [.num 1, .num 3] true none none
    (by decide) (fun _ _ _ _ => rfl)

/-- **C2, counterexample.**  The claim "the pipeline (fitPeaks followed by
calc_psf_params) always completes and returns a (possibly smaller) result
set … no per-peak or per-slice failure raises an exception that aborts the
whole batch" is false as stated: `gauss_fit` catches only `RuntimeError`
around the 1D `curve_fit`, so a `ValueError` raised there aborts the whole
batch.  Concretely, on a 1-slice `2 × 2` stack with one blob the per-peak
z-profile is a single point; its moment start `p0` contains NaN (the
centering moment divides `0/0`), and `curve_fit` raises `ValueError` on a
non-finite start — modelled by a 1D solver that raises `ValueError` exactly
when `p0` contains NaN.  The pipeline returns the uncaught `ValueError`
instead of a result set. -/
theorem pipeline_abort_counterexample :
    pipeline
      (fun _ _ => .ok [.num 1, .num 0, .num 0, .num 1, .num 1, .num 0, .num 0])
      (fun _ _ _ p0 => if p0.any PyFloat.isNan then Outcome1D.valueError
                       else Outcome1D.runtimeError)
      id [[[(1 : ℚ), 1], [1, 1]]] 2 [⟨0, 0, 2, 1⟩] = .error .valueError := by
  with_unfolding_all rfl

/-- **C10** (confirmed).  For every shape, center and width, the row and
column slices returned by `sliceMaker` have an exclusive end index of at most
`dimension - 1`.  Since a Python slice `slice(start, stop)` excludes `stop`,
no fitting window ever includes the last row (index `ymax - 1`) or the last
column (index `xmax - 1`): a window whose far edge would exactly reach the
boundary (`y0 + half2 = ymax`) is clamped to `ymax - 1` and loses that final
pixel even though the requested width would fit. -/
theorem sliceMaker_end_le_dim_sub_one (ymax xmax : ℕ) (y0 x0 width : ℤ) :
    (sliceMaker ymax xmax y0 x0 width).yend ≤ (ymax : ℤ) - 1 ∧
    (sliceMaker ymax xmax y0 x0 width).xend ≤ (xmax : ℤ) - 1 := by
  unfold sliceMaker
  dsimp only
  constructor <;> split <;> omega

/-- **C7, counterexample.**  The claim "for every integer center and width the
returned bounds are clamped into range, yielding no negative or out-of-range
slice bounds" is false: `sliceMaker` clamps starts only from below (at `0`)
and ends only from above (at `dimension - 1`).  For a stack slice of shape
`50 × 50`, a center row `y0 = 100` beyond the far edge and width `10` give
`ystart = 95 > 49`, an out-of-range start. -/
theorem sliceMaker_out_of_range_counterexample :
    (sliceMaker 50 50 100 25 10).ystart = 95 ∧
    ¬ (sliceMaker 50 50 100 25 10).withinDims 50 50 := by
  constructor
  · rfl
  · decide

/-- **C7** (amended).  `sliceMaker` splits the width as
`half1 = width // 2` (Python floor division) and `half2 = width - half1`,
clamps the start indices below at `0` and the end indices above at
`dimension - 1`; and, provided the center lies inside the slice
(`0 ≤ y0 ≤ ymax - 1`, `0 ≤ x0 ≤ xmax - 1`) and the width is nonnegative,
all four returned bounds lie in `[0, dimension - 1]` — no negative and no
out-of-range slice bound. -/
theorem sliceMaker_clamps_and_in_range (ymax xmax : ℕ) (y0 x0 width : ℤ)
    (hy0 : 0 ≤ y0) (hy1 : y0 ≤ (ymax : ℤ) - 1)
    (hx0 : 0 ≤ x0) (hx1 : x0 ≤ (xmax : ℤ) - 1) (hw : 0 ≤ width) :
    sliceMaker ymax xmax y0 x0 width =
      ⟨max (y0 - Int.fdiv width 2) 0,
       min (y0 + (width - Int.fdiv width 2)) ((ymax : ℤ) - 1),
       max (x0 - Int.fdiv width 2) 0,
       min (x0 + (width - Int.fdiv width 2)) ((xmax : ℤ) - 1)⟩ ∧
    (sliceMaker ymax xmax y0 x0 width).withinDims ymax xmax := by
  have hfd : Int.fdiv width 2 = width / 2 := Int.fdiv_eq_ediv width (by norm_num)
  unfold sliceMaker SliceBounds.withinDims
  dsimp only
  rw [hfd]
  constructor
  · have : ∀ a b c d a2 b2 c2 d2 : ℤ, a = a2 → b = b2 → c = c2 → d = d2 →
        SliceBounds.mk a b c d = SliceBounds.mk a2 b2 c2 d2 := by
      intro a b c d a2 b2 c2 d2 h1 h2 h3 h4
      rw [h1, h2, h3, h4]
    refine this _ _ _ _ _ _ _ _ ?_ ?_ ?_ ?_ <;> split <;> omega
  · refine ⟨?_, ?_, ?_, ?_, ?_, ?_, ?_, ?_⟩ <;> split <;> omega

/-- **C8** (confirmed).  Invalid inputs raise immediately and are never
converted into a failure result: `Gauss2D.model` called with a parameter
count other than 5, 6 or 7 raises `ValueError` (and 5 selects the symmetric
variant, 6 the axis-aligned variant, 7 the full variant), and
`Gauss2D.gauss2D` with `x0` and `x1` of mismatched shapes raises `ValueError`
before any computation (the error is returned for all parameter values, so no
arithmetic on the data can precede it); in both functions the outcome is a
raised error, never a caught-and-defaulted result. -/
theorem model_invalid_input_raises :
    (∀ (expA : ℚ → ℚ) (x0 x1 : Arr) (args : List PyFloat),
      args.length ≠ 5 → args.length ≠ 6 → args.length ≠ 7 →
      model expA x0 x1 args = .error .valueError) ∧
    (∀ (expA : ℚ → ℚ) (x0 x1 : Arr) (amp mu0 mu1 sigma0 offset : PyFloat),
      model expA x0 x1 [amp, mu0, mu1, sigma0, offset] =
        gauss2D_sym expA x0 x1 amp mu0 mu1 sigma0 offset) ∧
    (∀ (expA : ℚ → ℚ) (x0 x1 : Arr) (amp mu0 mu1 sigma0 sigma1 offset : PyFloat),
      model expA x0 x1 [amp, mu0, mu1, sigma0, sigma1, offset] =
        gauss2D_norot expA x0 x1 amp mu0 mu1 sigma0 sigma1 offset) ∧
    (∀ (expA : ℚ → ℚ) (x0 x1 : Arr) (amp mu0 mu1 sigma0 sigma1 rho offset : PyFloat),
      model expA x0 x1 [amp, mu0, mu1, sigma0, sigma1, rho, offset] =
        gauss2D expA x0 x1 amp mu0 mu1 sigma0 sigma1 rho offset) ∧
    (∀ (expA : ℚ → ℚ) (x0 x1 : Arr) (amp mu0 mu1 sigma0 sigma1 rho offset : PyFloat),
      x0.shape ≠ x1.shape →
      gauss2D expA x0 x1 amp mu0 mu1 sigma0 sigma1 rho offset =
        .error .valueError) := by
  refine ⟨?_, ?_, ?_, ?_, ?_⟩
  · intro expA x0 x1 args h5 h6 h7
    rcases args with _|⟨a, _|⟨b, _|⟨c, _|⟨d, _|⟨e, _|⟨f, _|⟨g, _|⟨h, t⟩⟩⟩⟩⟩⟩⟩⟩
    · rfl
    · rfl
    · rfl
    · rfl
    · rfl
    · exact absurd rfl h5
    · exact absurd rfl h6
    · exact absurd rfl h7
    · rfl
  · intro expA x0 x1 amp mu0 mu1 sigma0 offset
    rfl
  · intro expA x0 x1 amp mu0 mu1 sigma0 sigma1 offset
    rfl
  · intro expA x0 x1 amp mu0 mu1 sigma0 sigma1 rho offset
    rfl
  · intro expA x0 x1 amp mu0 mu1 sigma0 sigma1 rho offset hne
    unfold gauss2D
    rw [if_pos hne]

/-- Witness for `model_invalid_input_raises` at concrete inputs: a 1-element
parameter list raises, and mismatched shapes `[2]` vs `[1, 2]` raise. -/
theorem model_invalid_input_raises_witness :
    model id ⟨[2], [.num 0, .num 1]⟩ ⟨[2], [.num 0, .num 1]⟩ [.num 1] =
      .error .valueError ∧
    gauss2D id ⟨[2], [.num 0, .num 1]⟩ ⟨[1, 2], [.num 0, .num 1]⟩
      (.num 1) (.num 0) (.num 0) (.num 1) (.num 1) (.num 0) (.num 0) =
      .error .valueError := by
  constructor
  · exact model_invalid_input_raises.1 id _ _ _ (by decide) (by decide) (by decide)
  · exact model_invalid_input_raises.2.2.2.2 id _ _ _ _ _ _ _ _ _ (by decide)

/-- Witness for `sliceMaker_clamps_and_in_range` at the concrete shape
`50 × 50`, center `(0, 49)`, width `10` (a window at the stack edge). -/
theorem sliceMaker_clamps_and_in_range_witness :
    sliceMaker 50 50 0 49 10 = ⟨0, 5, 44, 49⟩ ∧
    (sliceMaker 50 50 0 49 10).withinDims 50 50 := by
  have h := sliceMaker_clamps_and_in_range 50 50 0 49 10
    (by decide) (by decide) (by decide) (by decide) (by decide)
  exact ⟨h.1.trans (by decide), h.2⟩

/-- **C2** (amended).  Provided the environment is benign — the 2D solver,
whenever it reports success, returns a vector of the start's length with
finite entries and a fitted center inside the window (`GoodSolver2D`); the 1D
solver's failures are non-convergence `RuntimeError`s, never the uncaught
`ValueError` (`GoodSolver1D`); the stack is nonempty and rectangular with
slices at least `2 × 2` (`WfStack`); the detector blobs lie inside the slice
and the fitting width is at least 2 — the pipeline (`fitPeaks` followed by
`calc_psf_params`) always completes and returns a (possibly smaller) result
set: a non-finite seed fit would exclude only its blob, a failed slice
records a sentinel row without aborting its track, and no per-peak or
per-slice failure raises an exception that aborts the whole batch.  (Without
the `GoodSolver1D` condition the claim fails; see
`pipeline_abort_counterexample`.) -/
theorem pipeline_completes
    (solver2 : Solver2D) (solver1 : Solver1D) (sqrtA : ℚ → ℚ)
    (stack : Stack) (fitwidth : ℤ) (blobs : List Blob)
    (hs2 : GoodSolver2D solver2) (hs1 : GoodSolver1D solver1)
    (hwf : WfStack stack) (hw : 2 ≤ fitwidth)
    (hblobs : ∀ b ∈ blobs, 0 ≤ b.y ∧ b.y ≤ (nRows (stack.headD []) : ℤ) - 1 ∧
      0 ≤ b.x ∧ b.x ≤ (nCols (stack.headD []) : ℤ) - 1) :
    ∃ res, pipeline solver2 solver1 sqrtA stack fitwidth blobs = .ok res ∧
      res.length ≤ blobs.length := by
  obtain ⟨tables, hgo, hlen, hall⟩ :=
    fitPeaksGo_ok solver2 sqrtA stack fitwidth hs2 hwf hw blobs hblobs
  obtain ⟨res, hcalc, hreslen⟩ := calc_psf_params_ok solver1 sqrtA hs1 tables hall
  refine ⟨res, ?_, by omega⟩
  unfold pipeline fitPeaks
  rw [hgo]
  dsimp only [Bind.bind, Except.bind]
  exact hcalc

/-- Witness for `pipeline_completes`: a `1 × 2 × 2` stack, one in-range blob,
and solvers that always fail with `RuntimeError` (vacuously benign) yield a
completed pipeline with one summary row. -/
theorem pipeline_completes_witness :
    ∃ res, pipeline (fun _ _ => Outcome2D.runtimeError)
      (fun _ _ _ _ => Outcome1D.runtimeError) id
      [[[(1 : ℚ), 1], [1, 1]]] 2 [⟨0, 0, 2, 1⟩] = .ok res ∧
      res.length ≤ ([⟨0, 0, 2, 1⟩] : List Blob).length :=
  pipeline_completes (fun _ _ => Outcome2D.runtimeError)
    (fun _ _ _ _ => Outcome1D.runtimeError) id
    [[[(1 : ℚ), 1], [1, 1]]] 2 [⟨0, 0, 2, 1⟩]
    (fun _ _ _ h => nomatch h)
    (fun _ _ _ _ => ⟨(fun h => nomatch h), (fun _ h => nomatch h)⟩)
    (by unfold WfStack; decide) (by decide) (by decide)

end Peaks
